import Mathlib

/-!
Verification development for the unreal-mcp repository (a Python MCP bridge
to Unreal Engine's Remote Control HTTP API).

Modelling conventions:
* Python values are embedded as `PyVal` (numbers split into `int` and `float`
  as in Python; floats are modelled as exact rationals `ℚ` — every numeric
  literal the verified properties touch is exactly representable).
* Fallible Python code is embedded in `Except String α`; the string is the
  exception message.
* Remote calls are embedded via an explicit oracle and a command trace
  (see `UEM` below).
-/

/-- Embedded Python value. -/
inductive PyVal where
  | none
  | bool (b : Bool)
  | int (n : Int)
  | float (q : ℚ)
  | str (s : String)
  | list (xs : List PyVal)
  | dict (kvs : List (String × PyVal))
deriving Repr

namespace PyVal

/-- Python truthiness (`bool(v)`). -/
def truthy : PyVal → Bool
  | .none => false
  | .bool b => b
  | .int n => n != 0
  | .float q => q != 0
  | .str s => !s.isEmpty
  | .list xs => !xs.isEmpty
  | .dict kvs => !kvs.isEmpty

/-- `isinstance(v, dict)`. -/
def isDict : PyVal → Bool
  | .dict _ => true
  | _ => false

/-- `isinstance(v, list)`. -/
def isList : PyVal → Bool
  | .list _ => true
  | _ => false

/-- `isinstance(v, str)`. -/
def isStr : PyVal → Bool
  | .str _ => true
  | _ => false

/-- `d.get(k, default)` on a dict; non-dicts have no `get`, callers that can
reach that case handle it explicitly. -/
def getD (v : PyVal) (k : String) (d : PyVal) : PyVal :=
  match v with
  | .dict kvs => match kvs.lookup k with | some x => x | Option.none => d
  | _ => d

/-- `d.get(k)` (default `None`). -/
def get (v : PyVal) (k : String) : PyVal := v.getD k .none

/-- `d[k] = x` on an association list with Python dict semantics: an existing
key keeps its position and gets the new value, a new key is appended. -/
def dictSet (kvs : List (String × PyVal)) (k : String) (x : PyVal) :
    List (String × PyVal) :=
  match kvs with
  | [] => [(k, x)]
  | (k', x') :: rest =>
      if k' = k then (k', x) :: rest else (k', x') :: dictSet rest k x

/-- Python `a or b`. -/
def pyOr (a b : PyVal) : PyVal := if a.truthy then a else b

end PyVal

/-! ## Python string helpers -/

/-- Python whitespace (`str.split()` / `str.strip()` character class). -/
def pyIsWs (c : Char) : Bool :=
  c = ' ' || c = '\t' || c = '\n' || c = '\r' || c = '\x0b' || c = '\x0c'

/-- `str.strip()`. -/
def pyStrip (s : String) : String :=
  ⟨((s.toList.dropWhile pyIsWs).reverse.dropWhile pyIsWs).reverse⟩

def pySplitWsCore : List Char → List Char → List String
  | [], cur => if cur.isEmpty then [] else [String.mk cur.reverse]
  | c :: cs, cur =>
      if pyIsWs c then
        if cur.isEmpty then pySplitWsCore cs []
        else String.mk cur.reverse :: pySplitWsCore cs []
      else pySplitWsCore cs (c :: cur)

/-- `str.split()` with no argument: split on whitespace runs, no empties. -/
def pySplitWhitespace (s : String) : List String := pySplitWsCore s.toList []

/-- `part.split('=', 1)` when `'=' in part`: the text before the first `=`
and everything after it; `none` when there is no `=`. -/
def pySplitEq (s : String) : Option (String × String) :=
  let (k, rest) := s.toList.span (fun c => c ≠ '=')
  match rest with
  | [] => Option.none
  | _ :: v => some (⟨k⟩, ⟨v⟩)

/-- `str.lower()` (ASCII scope). -/
def pyLower (s : String) : String := ⟨s.toList.map Char.toLower⟩

/-- `str.upper()` (ASCII scope). -/
def pyUpper (s : String) : String := ⟨s.toList.map Char.toUpper⟩

/-- `str.capitalize()` (ASCII scope). -/
def pyCapitalize (s : String) : String :=
  match s.toList with
  | [] => ""
  | c :: cs => ⟨c.toUpper :: cs.map Char.toLower⟩

/-- `str.isdigit()` (ASCII scope). -/
def pyIsDigitStr (s : String) : Bool :=
  !s.isEmpty && s.toList.all Char.isDigit

/-- `value.replace('.', '', 1)`: remove the first `.` if any. -/
def pyReplaceFirstDot (s : String) : String :=
  let (a, b) := s.toList.span (fun c => c ≠ '.')
  match b with
  | [] => s
  | _ :: rest => ⟨a ++ rest⟩

/-- Numeric value of a digit string. -/
def pyDigitsToNat (l : List Char) : ℕ :=
  l.foldl (fun a c => a * 10 + (c.toNat - '0'.toNat)) 0

/-- Substring containment on character lists (Python `needle in hay`). -/
def pyInChars (needle hay : List Char) : Bool :=
  if needle.isPrefixOf hay then true
  else
    match hay with
    | [] => false
    | _ :: t => pyInChars needle t

/-- `needle in hay` on strings (substring containment). -/
def pyInStr (needle hay : String) : Bool :=
  pyInChars needle.toList hay.toList

def takeDigits (l : List Char) : List Char × List Char := l.span Char.isDigit

/-- `s.split(c)` for a one-character separator: split on every occurrence,
keeping empty pieces. -/
def pySplitChar (c : Char) (s : String) : List String :=
  (s.toList.splitOn c).map String.mk

/-- `s.startswith(p)`. -/
def pyStartsWith (s p : String) : Bool := p.toList.isPrefixOf s.toList

/-- `s.endswith(p)`. -/
def pyEndsWith (s p : String) : Bool := p.toList.reverse.isPrefixOf s.toList.reverse

/-!
Python floats are modelled as exact rationals. All rational values in this
development are built with `mkRat` and the helpers below (rather than the
`ℚ` field operations) so that concrete runs reduce inside the kernel; every
numeric value the verified properties touch is exactly representable.
-/

/-- Exact multiplication on the rational model of Python floats. -/
def qMul (a b : ℚ) : ℚ := mkRat (a.num * b.num) (a.den * b.den)

/-- Exact addition on the rational model of Python floats. -/
def qAdd (a b : ℚ) : ℚ := mkRat (a.num * b.den + b.num * a.den) (a.den * b.den)

/-- Exact subtraction on the rational model of Python floats. -/
def qSub (a b : ℚ) : ℚ := mkRat (a.num * b.den - b.num * a.den) (a.den * b.den)

/-- Negation on the rational model of Python floats. -/
def qNeg (a : ℚ) : ℚ := mkRat (-a.num) a.den

/-- Core of Python `float(s)` on a stripped character list: optional sign,
then `digits[.digits]`, `.digits` or `digits.`, with an optional decimal
exponent. (Underscored literals and `inf`/`nan`, which the verified
properties never use, are out of scope and rejected.) -/
def pyFloatCore (l : List Char) : Option ℚ :=
  let (sgn, l1) : Int × List Char :=
    match l with
    | '+' :: r => (1, r)
    | '-' :: r => (-1, r)
    | _ => (1, l)
  let (ip, l2) := takeDigits l1
  let (fp, l3) :=
    match l2 with
    | '.' :: r => let (d, r') := takeDigits r; (d, r')
    | _ => ([], l2)
  if ip.isEmpty && fp.isEmpty then Option.none
  else
    let num : Int := sgn * (pyDigitsToNat (ip ++ fp) : Int)
    let den : ℕ := 10 ^ fp.length
    match l3 with
    | [] => some (mkRat num den)
    | c :: r =>
        if c = 'e' || c = 'E' then
          let (eneg, r1) : Bool × List Char :=
            match r with
            | '+' :: r' => (false, r')
            | '-' :: r' => (true, r')
            | _ => (false, r)
          let (ed, r2) := takeDigits r1
          if ed.isEmpty || !r2.isEmpty then Option.none
          else
            let e := pyDigitsToNat ed
            if eneg then some (mkRat num (den * 10 ^ e))
            else some (mkRat (num * 10 ^ e) den)
        else Option.none

/-- Python `float(s)` for a string argument. -/
def pyFloat (s : String) : Option ℚ :=
  let l := (pyStrip s).toList
  if l.isEmpty then Option.none else pyFloatCore l

/-! ## JSON (`json.loads` / `json.dumps(indent=2)`)

The reader follows Python's strict `json.loads` grammar: the literals
`true`/`false`/`null`, numbers matching `-?(0|[1-9]\d*)(\.\d+)?([eE][+-]?\d+)?`
(regex semantics: an invalid tail is left unconsumed), double-quoted strings
with the standard escapes, arrays and objects. JSON whitespace is space, tab,
newline and carriage return. Recursion is bounded by a fuel argument that the
top-level entry point instantiates with the input length, which bounds the
nesting depth of any input. Python's non-strict extras (`NaN`, `Infinity`),
which no verified property touches, are out of scope and rejected. -/

def jsonIsWs (c : Char) : Bool := c = ' ' || c = '\t' || c = '\n' || c = '\r'

def jsonSkipWs (l : List Char) : List Char := l.dropWhile jsonIsWs

/-- JSON number, with regex-style maximal-munch semantics. -/
def jsonNumber (l : List Char) : Option (PyVal × List Char) :=
  let (sgn, l1) : Int × List Char :=
    match l with
    | '-' :: r => (-1, r)
    | _ => (1, l)
  match l1 with
  | [] => Option.none
  | c :: _ =>
      if ¬ c.isDigit then Option.none
      else
        let (ip, l2) : List Char × List Char :=
          match l1 with
          | '0' :: r => (['0'], r)
          | _ => takeDigits l1
        let (fp, l3) : Option (List Char) × List Char :=
          match l2 with
          | '.' :: r =>
              let (d, r') := takeDigits r
              if d.isEmpty then (Option.none, l2) else (some d, r')
          | _ => (Option.none, l2)
        let (ep, l4) : Option (Bool × List Char) × List Char :=
          match l3 with
          | c' :: r =>
              if c' = 'e' || c' = 'E' then
                let (eneg, r1) : Bool × List Char :=
                  match r with
                  | '+' :: r' => (false, r')
                  | '-' :: r' => (true, r')
                  | _ => (false, r)
                let (ed, r2) := takeDigits r1
                if ed.isEmpty then (Option.none, l3) else (some (eneg, ed), r2)
              else (Option.none, l3)
          | _ => (Option.none, l3)
        match fp, ep with
        | Option.none, Option.none => some (.int (sgn * (pyDigitsToNat ip : Int)), l2)
        | _, _ =>
            let fd := fp.getD []
            let num : Int := sgn * (pyDigitsToNat (ip ++ fd) : Int)
            let den : ℕ := 10 ^ fd.length
            match ep with
            | Option.none => some (.float (mkRat num den), l4)
            | some (eneg, ed) =>
                let e := pyDigitsToNat ed
                if eneg then some (.float (mkRat num (den * 10 ^ e)), l4)
                else some (.float (mkRat (num * 10 ^ e) den), l4)

def hexDigitToNat (c : Char) : Option ℕ :=
  if c.isDigit then some (c.toNat - '0'.toNat)
  else if 'a' ≤ c ∧ c ≤ 'f' then some (c.toNat - 'a'.toNat + 10)
  else if 'A' ≤ c ∧ c ≤ 'F' then some (c.toNat - 'A'.toNat + 10)
  else Option.none

/-- JSON string body after the opening quote. -/
def jsonStringBody : List Char → List Char → Option (String × List Char)
  | [], _ => Option.none
  | c :: r, acc =>
      if c = '"' then some (String.mk acc.reverse, r)
      else if c = '\\' then
        match r with
        | [] => Option.none
        | e :: r' =>
            if e = '"' then jsonStringBody r' ('"' :: acc)
            else if e = '\\' then jsonStringBody r' ('\\' :: acc)
            else if e = '/' then jsonStringBody r' ('/' :: acc)
            else if e = 'b' then jsonStringBody r' ('\x08' :: acc)
            else if e = 'f' then jsonStringBody r' ('\x0c' :: acc)
            else if e = 'n' then jsonStringBody r' ('\n' :: acc)
            else if e = 'r' then jsonStringBody r' ('\r' :: acc)
            else if e = 't' then jsonStringBody r' ('\t' :: acc)
            else if e = 'u' then
              match r' with
              | h1 :: h2 :: h3 :: h4 :: r'' =>
                  match hexDigitToNat h1, hexDigitToNat h2,
                        hexDigitToNat h3, hexDigitToNat h4 with
                  | some a, some b, some c', some d =>
                      jsonStringBody r''
                        (Char.ofNat (((a * 16 + b) * 16 + c') * 16 + d) :: acc)
                  | _, _, _, _ => Option.none
              | _ => Option.none
            else Option.none
      else if c.toNat < 0x20 then Option.none
      else jsonStringBody r (c :: acc)

mutual

/-- One JSON value (leading whitespace allowed), returning the rest. -/
def jsonVal : ℕ → List Char → Option (PyVal × List Char)
  | 0, _ => Option.none
  | fuel + 1, l =>
      match jsonSkipWs l with
      | 't' :: 'r' :: 'u' :: 'e' :: r => some (.bool true, r)
      | 'f' :: 'a' :: 'l' :: 's' :: 'e' :: r => some (.bool false, r)
      | 'n' :: 'u' :: 'l' :: 'l' :: r => some (.none, r)
      | '"' :: r =>
          match jsonStringBody r [] with
          | some (s, r') => some (.str s, r')
          | Option.none => Option.none
      | '[' :: r =>
          (match jsonSkipWs r with
           | ']' :: r' => some (.list [], r')
           | _ => jsonArrItems fuel r [])
      | '{' :: r =>
          (match jsonSkipWs r with
           | '}' :: r' => some (.dict [], r')
           | _ => jsonObjItems fuel r [])
      | l' => jsonNumber l'

/-- Items of a JSON array after `[` (or after a `,`). -/
def jsonArrItems : ℕ → List Char → List PyVal → Option (PyVal × List Char)
  | 0, _, _ => Option.none
  | fuel + 1, l, acc =>
      match jsonVal fuel l with
      | Option.none => Option.none
      | some (v, r) =>
          match jsonSkipWs r with
          | ',' :: r' => jsonArrItems fuel r' (v :: acc)
          | ']' :: r' => some (.list (v :: acc).reverse, r')
          | _ => Option.none

/-- Members of a JSON object after `{` (or after a `,`). -/
def jsonObjItems : ℕ → List Char → List (String × PyVal) →
    Option (PyVal × List Char)
  | 0, _, _ => Option.none
  | fuel + 1, l, acc =>
      match jsonSkipWs l with
      | '"' :: r =>
          match jsonStringBody r [] with
          | Option.none => Option.none
          | some (k, r') =>
              match jsonSkipWs r' with
              | ':' :: r'' =>
                  match jsonVal fuel r'' with
                  | Option.none => Option.none
                  | some (v, r3) =>
                      match jsonSkipWs r3 with
                      | ',' :: r4 => jsonObjItems fuel r4 (PyVal.dictSet acc k v)
                      | '}' :: r4 => some (.dict (PyVal.dictSet acc k v), r4)
                      | _ => Option.none
              | _ => Option.none
      | _ => Option.none

end

/-- Python `json.loads(s)`: one JSON document with only whitespace around it. -/
def jsonLoads (s : String) : Option PyVal :=
  match jsonVal (s.length + 1) s.toList with
  | some (v, rest) => if (jsonSkipWs rest).isEmpty then some v else Option.none
  | Option.none => Option.none

def jsonSpaces (n : ℕ) : String := String.mk (List.replicate n ' ')

def natToHexDigit (n : ℕ) : Char :=
  if n < 10 then Char.ofNat ('0'.toNat + n) else Char.ofNat ('a'.toNat + n - 10)

/-- `ensure_ascii` escaping of one character (BMP scope). -/
def jsonEscapeChar (c : Char) : List Char :=
  if c = '"' then ['\\', '"']
  else if c = '\\' then ['\\', '\\']
  else if c = '\n' then ['\\', 'n']
  else if c = '\t' then ['\\', 't']
  else if c = '\r' then ['\\', 'r']
  else if c = '\x08' then ['\\', 'b']
  else if c = '\x0c' then ['\\', 'f']
  else if c.toNat < 0x20 || c.toNat > 0x7e then
    let n := c.toNat
    ['\\', 'u', natToHexDigit (n / 4096 % 16), natToHexDigit (n / 256 % 16),
     natToHexDigit (n / 16 % 16), natToHexDigit (n % 16)]
  else [c]

/-- JSON quoting of a string. -/
def jsonQuote (s : String) : String :=
  "\"" ++ String.mk (s.toList.flatMap jsonEscapeChar) ++ "\""

/-- Best-effort `repr` of a Python float whose value is the exact rational
`q`: floats arising in this program always have a finite decimal expansion.
No verified property inspects this text. -/
def floatRepr (q : ℚ) : String :=
  let k := ((List.range 65).find? (fun k => q.den ∣ 10 ^ k)).getD 0
  if q.den ∣ 10 ^ k then
    let sgn := if q.num < 0 then "-" else ""
    let scaled := q.num.natAbs * (10 ^ k / q.den)
    if k = 0 then sgn ++ toString scaled ++ ".0"
    else
      let ipart := scaled / 10 ^ k
      let fdigits := (Nat.toDigits 10 (scaled % 10 ^ k + 10 ^ k)).drop 1
      let trimmed := (fdigits.reverse.dropWhile (fun c => c = '0')).reverse
      sgn ++ toString ipart ++ "." ++
        (if trimmed.isEmpty then "0" else String.mk trimmed)
  else toString q.num ++ "/" ++ toString q.den

mutual

/-- `json.dumps(v, indent=2)` at enclosing indentation `ind`. -/
def jsonDumpVal (ind : ℕ) : PyVal → String
  | .none => "null"
  | .bool b => if b then "true" else "false"
  | .int n => toString n
  | .float q => floatRepr q
  | .str s => jsonQuote s
  | .list [] => "[]"
  | .list (x :: xs) =>
      "[\n" ++ String.intercalate ",\n" (jsonDumpItems (ind + 2) (x :: xs)) ++
        "\n" ++ jsonSpaces ind ++ "]"
  | .dict [] => "\x7b\x7d"
  | .dict (kv :: kvs) =>
      "\x7b\n" ++ String.intercalate ",\n" (jsonDumpPairs (ind + 2) (kv :: kvs)) ++
        "\n" ++ jsonSpaces ind ++ "\x7d"

def jsonDumpItems (ind : ℕ) : List PyVal → List String
  | [] => []
  | x :: xs => (jsonSpaces ind ++ jsonDumpVal ind x) :: jsonDumpItems ind xs

def jsonDumpPairs (ind : ℕ) : List (String × PyVal) → List String
  | [] => []
  | (k, v) :: kvs =>
      (jsonSpaces ind ++ jsonQuote k ++ ": " ++ jsonDumpVal ind v) ::
        jsonDumpPairs ind kvs

end

/-- `json.dumps(v, indent=2)`. -/
def jsonDumps (v : PyVal) : String := jsonDumpVal 0 v

/-- Python `float(x)` on an embedded value. -/
def pyToFloat (v : PyVal) : Except String ℚ :=
  match v with
  | .int n => .ok (mkRat n 1)
  | .float q => .ok q
  | .bool b => .ok (if b then 1 else 0)
  | .str s =>
      match pyFloat s with
      | some q => .ok q
      | Option.none => .error "ValueError: could not convert string to float"
  | _ => .error "TypeError: float() argument must be a string or a real number"

/-! ## `unreal_utils.py` -/

namespace UnrealUtils

/-- `unreal_utils.parse_value` (lines 52–80): type a raw `key=value` token
value from key name and content. -/
def parse_value (key value : String) : Except String PyVal :=
  if value.toList.contains ',' &&
      ["location", "rotation", "scale", "color", "material_color"].contains key then
    match (pySplitChar ',' value).mapM pyFloat with
    | some qs => .ok (.list (qs.map PyVal.float))
    | Option.none => .error "ValueError: could not convert string to float"
  else if pyLower value = "true" then .ok (.bool true)
  else if pyLower value = "false" then .ok (.bool false)
  else if pyIsDigitStr value then .ok (.int (pyDigitsToNat value.toList : Int))
  else if pyIsDigitStr (pyReplaceFirstDot value) then
    match pyFloat value with
    | some q => .ok (.float q)
    | Option.none => .error "ValueError: could not convert string to float"
  else .ok (.str value)

/-- `unreal_utils.parse_kwargs` (lines 13–50): dict passes through; a string
that strips to `{...}` is tried as JSON (falling back on decode error);
otherwise space-separated `key=value` tokens are typed via `parse_value`
(whose `ValueError` propagates); other truthy non-str input yields `{}`. -/
def parse_kwargs (kwargs_str : PyVal) : Except String PyVal :=
  if ¬ kwargs_str.truthy then .ok (.dict [])
  else if kwargs_str.isDict then .ok kwargs_str
  else
    match kwargs_str with
    | .str s =>
        match
          (if pyStartsWith (pyStrip s) "\x7b" && pyEndsWith (pyStrip s) "\x7d" then
            jsonLoads s
          else Option.none) with
        | some j => .ok j
        | Option.none => do
            let kvs ← (pySplitWhitespace s).foldlM
              (fun kw part =>
                match pySplitEq part with
                | some (k, val) => do
                    let v ← parse_value k val
                    pure (PyVal.dictSet kw k v)
                | Option.none => pure kw) []
            .ok (.dict kvs)
    | _ => .ok (.dict [])

/-- The `if not keys: keys = ["X", "Y", "Z"]` default at lines 94–95. -/
def effective_keys (keys0 : Option (List String)) : List String :=
  match keys0 with
  | Option.none => ["X", "Y", "Z"]
  | some ks => if ks.isEmpty then ["X", "Y", "Z"] else ks

/-- The all-default dict of line 99: `0.0` everywhere, `1.0` for an `"A"`
key. -/
def default_fields (keys : List String) : PyVal :=
  .dict (keys.map (fun k => (k, .float (if k ≠ "A" then 0 else 1))))

/-- `unreal_utils.vector_to_ue_format` (lines 82–111): convert a float list
to the engine's labeled-field dict with the given keys (default `X/Y/Z`).
A non-list, or a list shorter than the key list, yields the all-default
dict. -/
def vector_to_ue_format (vector : PyVal) (keys0 : Option (List String)) :
    Except String PyVal :=
  let keys := effective_keys keys0
  match vector with
  | .list xs =>
      if xs.length < keys.length then .ok (default_fields keys)
      else do
        let kvs ← keys.enum.mapM (fun ik =>
          if ik.1 < xs.length then do
            let q ← pyToFloat (xs.getD ik.1 .none)
            pure (ik.2, PyVal.float q)
          else if ik.2 = "A" then pure (ik.2, PyVal.float 1)
          else pure (ik.2, PyVal.float 0))
        .ok (.dict kvs)
  | _ => .ok (default_fields keys)

/-- `unreal_utils.format_transform_params` (lines 113–140): format the
truthy ones among `location`, `rotation`, `scale` for the engine. -/
def format_transform_params (params : PyVal) : Except String PyVal := do
  let mut result : List (String × PyVal) := []
  let location := params.get "location"
  if location.truthy then
    result := PyVal.dictSet result "location" (← vector_to_ue_format location Option.none)
  let rotation := params.get "rotation"
  if rotation.truthy then
    result := PyVal.dictSet result "rotation"
      (← vector_to_ue_format rotation (some ["Pitch", "Yaw", "Roll"]))
  let scale := params.get "scale"
  if scale.truthy then
    result := PyVal.dictSet result "scale" (← vector_to_ue_format scale Option.none)
  .ok (.dict result)

/-- `unreal_utils.get_common_actor_name` (lines 142–153). -/
def get_common_actor_name (params : PyVal) (default_name : String) : PyVal :=
  PyVal.pyOr (params.get "actor_label")
    (PyVal.pyOr (params.get "name")
      (PyVal.pyOr (params.get "label") (.str default_name)))

/-- `unreal_utils.validate_required_params` (lines 155–171). -/
def validate_required_params (params : PyVal) (required : List String) :
    Bool × String :=
  let missing := required.filter (fun k => ¬ (params.get k).truthy)
  if ¬ missing.isEmpty then
    (false, "Missing required parameters: " ++ String.intercalate ", " missing)
  else (true, "")

/-- `unreal_utils.COMMON_SUBDIRS` (lines 174–184). -/
def COMMON_SUBDIRS : List String :=
  ["", "/Blueprints", "/Meshes", "/StaticMeshes", "/Materials", "/Textures",
   "/FX", "/Audio", "/Animations"]

/-- `unreal_utils.BASIC_SHAPES` (lines 187–193), in dict order. -/
def BASIC_SHAPES : List (String × String) :=
  [("CUBE", "/Engine/BasicShapes/Cube.Cube"),
   ("SPHERE", "/Engine/BasicShapes/Sphere.Sphere"),
   ("CYLINDER", "/Engine/BasicShapes/Cylinder.Cylinder"),
   ("PLANE", "/Engine/BasicShapes/Plane.Plane"),
   ("CONE", "/Engine/BasicShapes/Cone.Cone")]

/-- `unreal_utils.ASSET_TYPE_IDENTIFIERS` (lines 196–204), in dict order. -/
def ASSET_TYPE_IDENTIFIERS : List (String × List String) :=
  [("blueprint", ["/blueprint", "/blueprints", "bp_", "_bp", ".bp"]),
   ("staticmesh", ["/mesh", "/meshes", "/staticmesh", "/staticmeshes", "sm_", "_sm", ".sm"]),
   ("material", ["/material", "/materials", "mat_", "_mat", ".mat", "m_"]),
   ("texture", ["/texture", "/textures", "t_", "_t", ".t"]),
   ("sound", ["/sound", "/sounds", "/audio", "s_", "_s", ".s"]),
   ("particle", ["/fx", "/effect", "/effects", "/particle", "/particles", "fx_", "p_", "_p"]),
   ("animation", ["/anim", "/animation", "/animations", "a_", "_a", ".a"])]

end UnrealUtils

/-! ## `parse_kwargs` in `composite_meshes.py` and `unreal_modeling.py`

The two modules carry textually identical copies of a second `parse_kwargs`
(lines 30–66 in each file). Unlike `unreal_utils.parse_kwargs` it tries JSON
on every string (so any valid JSON document, mapping or not, is returned as
decoded), and its vector-typed key set omits `color`: only `location`,
`rotation`, `scale` and `material_color` are split on commas. `json.loads`
on truthy non-str, non-dict input raises a `TypeError` that the function
does not catch. -/

namespace CompositeMeshes

/-- Per-token typing inline in `composite_meshes.parse_kwargs` (lines 50–64),
factored out of the loop for reuse in statements. -/
def token_value (key value : String) : Except String PyVal :=
  if value.toList.contains ',' &&
      ["location", "rotation", "scale", "material_color"].contains key then
    match (pySplitChar ',' value).mapM pyFloat with
    | some qs => .ok (.list (qs.map PyVal.float))
    | Option.none => .error "ValueError: could not convert string to float"
  else if pyLower value = "true" then .ok (.bool true)
  else if pyLower value = "false" then .ok (.bool false)
  else if pyIsDigitStr value then .ok (.int (pyDigitsToNat value.toList : Int))
  else if pyIsDigitStr (pyReplaceFirstDot value) then
    match pyFloat value with
    | some q => .ok (.float q)
    | Option.none => .error "ValueError: could not convert string to float"
  else .ok (.str value)

/-- `composite_meshes.parse_kwargs` (lines 30–66). -/
def parse_kwargs (kwargs_str : PyVal) : Except String PyVal :=
  if ¬ kwargs_str.truthy then .ok (.dict [])
  else if kwargs_str.isDict then .ok kwargs_str
  else
    match kwargs_str with
    | .str s =>
        match jsonLoads s with
        | some j => .ok j
        | Option.none => do
            let kvs ← (pySplitWhitespace s).foldlM
              (fun kw part =>
                match pySplitEq part with
                | some (k, val) => do
                    let v ← token_value k val
                    pure (PyVal.dictSet kw k v)
                | Option.none => pure kw) []
            .ok (.dict kvs)
    | _ => .error "TypeError: the JSON object must be str, bytes or bytearray"

end CompositeMeshes

namespace UnrealModeling

/-- Per-token typing inline in `unreal_modeling.parse_kwargs` (lines 50–64);
the source text is identical to the `composite_meshes` copy. -/
def token_value (key value : String) : Except String PyVal :=
  if value.toList.contains ',' &&
      ["location", "rotation", "scale", "material_color"].contains key then
    match (pySplitChar ',' value).mapM pyFloat with
    | some qs => .ok (.list (qs.map PyVal.float))
    | Option.none => .error "ValueError: could not convert string to float"
  else if pyLower value = "true" then .ok (.bool true)
  else if pyLower value = "false" then .ok (.bool false)
  else if pyIsDigitStr value then .ok (.int (pyDigitsToNat value.toList : Int))
  else if pyIsDigitStr (pyReplaceFirstDot value) then
    match pyFloat value with
    | some q => .ok (.float q)
    | Option.none => .error "ValueError: could not convert string to float"
  else .ok (.str value)

/-- `unreal_modeling.parse_kwargs` (lines 30–66); the source text is
identical to the `composite_meshes` copy. -/
def parse_kwargs (kwargs_str : PyVal) : Except String PyVal :=
  if ¬ kwargs_str.truthy then .ok (.dict [])
  else if kwargs_str.isDict then .ok kwargs_str
  else
    match kwargs_str with
    | .str s =>
        match jsonLoads s with
        | some j => .ok j
        | Option.none => do
            let kvs ← (pySplitWhitespace s).foldlM
              (fun kw part =>
                match pySplitEq part with
                | some (k, val) => do
                    let v ← token_value k val
                    pure (PyVal.dictSet kw k v)
                | Option.none => pure kw) []
            .ok (.dict kvs)
    | _ => .error "TypeError: the JSON object must be str, bytes or bytearray"

end UnrealModeling

/-! ## Remote calls: oracle-and-trace monad

A remote call is an HTTP round trip determined by `objectPath`,
`functionName` and `parameters` (`generateTransaction` is `True` at every
call site and carries no information, so it is omitted). The engine is an
oracle mapping a command to either a decoded JSON response or a
transport-level error message; a run also records the trace of issued
commands in order (a failed call is still an issued call). -/

structure UECmd where
  objectPath : String
  functionName : String
  parameters : List (String × PyVal)
deriving Repr

/-- Oracle-and-trace computation: given the engine oracle and the trace so
far, produce a result (or a Python exception message) and the new trace. -/
def UEM (α : Type) : Type :=
  (UECmd → Except String PyVal) → List UECmd → Except String α × List UECmd

instance : Monad UEM where
  pure a := fun _ tr => (.ok a, tr)
  bind x f := fun o tr =>
    match x o tr with
    | (.ok a, tr') => f a o tr'
    | (.error e, tr') => (.error e, tr')

/-- Raise a Python exception. -/
def UEM.throw {α : Type} (e : String) : UEM α := fun _ tr => (.error e, tr)

/-- Python `try`/`except Exception`: side effects already performed are
kept. -/
def UEM.tryCatch {α : Type} (x : UEM α)(handler : String → UEM α) : UEM α :=
  fun o tr =>
    match x o tr with
    | (.ok a, tr') => (.ok a, tr')
    | (.error e, tr') => handler e o tr'

/-- Run from the empty trace. -/
def UEM.run {α : Type} (x : UEM α) (o : UECmd → Except String PyVal) :
    Except String α × List UECmd := x o []

/-! ## `unreal_connection.py` -/

namespace UnrealConnection

/-- `UnrealConnection.send_command` (lines 38–87) as seen through the
oracle: a transport-level failure (timeout, refusal, non-2xx status)
becomes a raised `Communication error with Unreal Engine: ...`. -/
def send_command (object_path function_name : String)
    (parameters : List (String × PyVal)) : UEM PyVal :=
  fun o tr =>
    let cmd : UECmd := ⟨object_path, function_name, parameters⟩
    match o cmd with
    | .ok v => (.ok v, tr ++ [cmd])
    | .error e =>
        (.error ("Communication error with Unreal Engine: " ++ e), tr ++ [cmd])

/-- Loop body of `find_actor_by_label` (lines 109–122). Actor paths are
strings on the Remote Control wire; a non-string entry in the actor list is
outside the wire model and raises. -/
def find_actor_loop (actor_label : String) : List PyVal → UEM (Option String)
  | [] => pure Option.none
  | p :: rest =>
      match p with
      | .str path =>
          UEM.tryCatch
            (do
              let label_result ← send_command path "GetActorLabel" []
              let label := label_result.getD "ReturnValue" (.str "")
              match label with
              | .str l =>
                  if l = actor_label then pure (some path)
                  else find_actor_loop actor_label rest
              | _ => find_actor_loop actor_label rest)
            (fun _ =>
              if pyInStr actor_label path then pure (some path)
              else find_actor_loop actor_label rest)
      | _ => UEM.throw "TypeError: expected a string actor path"

/-- `UnrealConnection.find_actor_by_label` (lines 89–127): enumerate all
level actors, then query each one's label until a match; any exception
yields `None`. -/
def find_actor_by_label (actor_label : String) : UEM (Option String) :=
  UEM.tryCatch
    (do
      let actors_result ← send_command
        "/Script/UnrealEd.Default__EditorActorSubsystem" "GetAllLevelActors" []
      let actors := actors_result.getD "ReturnValue" (.list [])
      match actors with
      | .list paths => find_actor_loop actor_label paths
      | _ => UEM.throw "TypeError: not iterable")
    (fun _ => pure Option.none)

/-- `UnrealConnection.get_component_by_class` (lines 129–150). -/
def get_component_by_class (actor_path component_class : String) : UEM PyVal :=
  UEM.tryCatch
    (do
      let result ← send_command actor_path "GetComponentByClass"
        [("ComponentClass", .str component_class)]
      pure (result.get "ReturnValue"))
    (fun _ => pure .none)

/-! ### Connection lifecycle (lines 15–36 and 152–178)

The module-level state is the global `_unreal_connection`, modelled as
`Option ℕ` (a handle number identifies one constructed `UnrealConnection`
object). `test_connection` performs one probe request and catches every
exception internally, so its entire observable behavior is a boolean
probe outcome. -/

/-- `UnrealConnection.test_connection` (lines 20–36). -/
def test_connection (probe : ℕ → Bool) (h : ℕ) : Bool := probe h

/-- The effect of one `send_command` call on the module global
`_unreal_connection`: the method body (lines 38–87) never assigns the
global, so the cached-handle state passes through unchanged whether the
call succeeds or fails. -/
def send_command_at (transport : ℕ → UECmd → Except String PyVal)
    (h : ℕ) (cmd : UECmd) (st : Option ℕ) : Except String PyVal × Option ℕ :=
  (match transport h cmd with
   | .ok v => .ok v
   | .error e => .error ("Communication error with Unreal Engine: " ++ e),
   st)

/-- `get_unreal_connection` (lines 155–178). With a cached handle, the
probe is run; since `test_connection` returns `False` rather than raising,
the `except` branch that clears `_unreal_connection` never runs, and when
the probe fails control falls past the creation block (the global is not
`None`) straight to `return _unreal_connection`: the cached handle is
returned unchanged either way. With no cached handle, a fresh connection
is constructed; a failed probe clears the global and raises. -/
def get_unreal_connection (probe : ℕ → Bool) (fresh : ℕ) (st : Option ℕ) :
    Except String ℕ × Option ℕ :=
  match st with
  | some h =>
      if test_connection probe h then (.ok h, some h)
      else (.ok h, some h)
  | Option.none =>
      if test_connection probe fresh then (.ok fresh, some fresh)
      else
        (.error ("Could not connect to Unreal Engine. " ++
          "Make sure Unreal Engine is running with Remote Control API enabled."),
         Option.none)

end UnrealConnection

/-- `.lower()` on an embedded value: a string method, anything else raises. -/
def pyLowerVal (v : PyVal) : Except String String :=
  match v with
  | .str s => .ok (pyLower s)
  | _ => .error "AttributeError: no attribute lower"

/-- `len(acc) >= max_results` with a Python-typed right operand. -/
def pyLenGe (n : ℕ) (v : PyVal) : Except String Bool :=
  match v with
  | .int m => .ok (m ≤ (n : Int))
  | .float q => .ok (q ≤ (mkRat n 1))
  | .bool b => .ok ((if b then 1 else 0) ≤ n)
  | _ => .error "TypeError: not supported between instances of int and other"

/-! ## `unreal_assets.py` -/

namespace UnrealAssets

open UnrealUtils (COMMON_SUBDIRS ASSET_TYPE_IDENTIFIERS)

/-- Client-side filter loop of `get_available_assets` (lines 65–94; the
fallback branch repeats the same loop textually at lines 126–151). Falsy
entries are skipped; a type filter must match one of its identifiers as a
substring of the lowercased path; a truthy search term must occur in it;
the loop stops as soon as the accumulated list reaches `max_results`. -/
def filter_assets (asset_type : String) (search_term : PyVal)
    (max_results : PyVal) : List PyVal → List PyVal →
    Except String (List PyVal)
  | [], acc => .ok acc
  | a :: rest, acc =>
      if ¬ a.truthy then filter_assets asset_type search_term max_results rest acc
      else
        match a with
        | .str s => do
            let lower := pyLower s
            let typeMatch :=
              if asset_type ≠ "all" ∧ (ASSET_TYPE_IDENTIFIERS.lookup asset_type).isSome then
                ((ASSET_TYPE_IDENTIFIERS.lookup asset_type).getD []).any
                  (fun ident => pyInStr ident lower)
              else true
            let termMatch ←
              if search_term.truthy then do
                let t ← pyLowerVal search_term
                pure (pyInStr t lower)
              else pure true
            let acc' := if typeMatch && termMatch then acc ++ [PyVal.str s] else acc
            let stop ← pyLenGe acc'.length max_results
            if stop then .ok acc'
            else filter_assets asset_type search_term max_results rest acc'
        | _ => .error "AttributeError: no attribute lower"

/-- Result payload built at lines 96–103 (and repeated at lines 153–159). -/
def asset_result (asset_type : String) (search_path search_term : PyVal)
    (filtered : List PyVal) : PyVal :=
  .dict [("asset_type",
           .str (if asset_type ≠ "all" then pyCapitalize asset_type else "All")),
         ("search_path", search_path),
         ("search_term", search_term),
         ("total_found", .int filtered.length),
         ("assets", .list filtered)]

/-- `unreal_assets.get_available_assets` (lines 18–169). `get_conn` models
the `get_unreal_connection()` probe, which succeeds or raises depending on
engine availability (its internal state logic is modelled separately in
`UnrealConnection`). The primary listing call falls back to
`GetAssetsByPath` on failure; every exception becomes a result string. -/
def get_available_assets (get_conn : UEM Unit) (kwargs_str : PyVal) :
    UEM String :=
  UEM.tryCatch
    (do
      get_conn
      let params ←
        match UnrealUtils.parse_kwargs kwargs_str with
        | .ok p => pure p
        | .error e => UEM.throw e
      let asset_type ←
        match pyLowerVal (params.getD "asset_type" (.str "All")) with
        | .ok s => pure s
        | .error e => UEM.throw e
      let search_path := params.getD "search_path" (.str "/Game")
      let search_term := params.getD "search_term" (.str "")
      let max_results := params.getD "max_results" (.int 20)
      let recursive0 := params.getD "recursive" (.bool true)
      let recursive : PyVal :=
        match recursive0 with
        | .str s => .bool (pyLower s = "true")
        | v => v
      UEM.tryCatch
        (do
          let list_assets_result ← UnrealConnection.send_command
            "/Script/EditorScriptingUtilities.Default__EditorAssetLibrary"
            "ListAssets"
            [("DirectoryPath", search_path), ("Recursive", recursive),
             ("IncludeFolder", .bool true)]
          let assets := list_assets_result.getD "ReturnValue" (.list [])
          let assetList ←
            match assets with
            | .list xs => pure xs
            | _ => UEM.throw "TypeError: not iterable"
          let filtered ←
            match filter_assets asset_type search_term max_results assetList [] with
            | .ok l => pure l
            | .error e => UEM.throw e
          pure (jsonDumps (asset_result asset_type search_path search_term filtered)))
        (fun e =>
          UEM.tryCatch
            (do
              let get_assets_result ← UnrealConnection.send_command
                "/Script/EditorScriptingUtilities.Default__EditorAssetLibrary"
                "GetAssetsByPath"
                [("DirectoryPath", search_path), ("Recursive", recursive),
                 ("IncludeFolder", .bool true)]
              let assets := get_assets_result.getD "ReturnValue" (.list [])
              let assetList ←
                match assets with
                | .list xs => pure xs
                | _ => UEM.throw "TypeError: not iterable"
              let filtered ←
                match filter_assets asset_type search_term max_results assetList [] with
                | .ok l => pure l
                | .error e2 => UEM.throw e2
              pure (jsonDumps (asset_result asset_type search_path search_term filtered)))
            (fun e2 =>
              pure ("Error listing assets: " ++ e ++
                ". Alternative approach also failed: " ++ e2))))
    (fun e => pure ("Error getting available assets: " ++ e))

/-- Per-subdirectory collection loop of `search_assets_recursively`
(lines 197–217): each subdirectory search that succeeds contributes its
decoded `assets` list, a failing one is logged and skipped. The
per-subdirectory query (`get_available_assets` on a built kwargs string,
then `json.loads(...)["assets"]`) is abstracted as `fetch` from the search
path to the decoded path list, which is exactly the data the enclosing
aggregation consumes. -/
def search_collect (fetch : String → Except String (List String))
    (base_path : String) : List String :=
  COMMON_SUBDIRS.foldl
    (fun acc subdir =>
      match fetch (base_path ++ subdir) with
      | .ok found => acc ++ found
      | .error _ => acc) []

/-- Duplicate removal loop of `search_assets_recursively` (lines 219–223):
keep the first occurrence of each path, preserving order. -/
def pyDedup (l : List String) : List String :=
  l.foldl (fun acc a => if a ∈ acc then acc else acc ++ [a]) []

/-- `unreal_assets.search_assets_recursively` (lines 171–234): fan the
asset query out over the conventional subdirectories, concatenate,
deduplicate preserving first-seen order, truncate the asset list to
`max_results` (`total_found` counts the untruncated unique list). -/
def search_assets_recursively (fetch : String → Except String (List String))
    (base_path : String) (asset_type : Option String)
    (search_term : Option String) (max_results : ℕ) : String :=
  let all_assets := search_collect fetch base_path
  let unique_assets := pyDedup all_assets
  let at0 := asset_type.getD ""
  jsonDumps (.dict
    [("asset_type", .str (if at0.isEmpty then "All" else pyCapitalize at0)),
     ("search_path", .str base_path),
     ("search_term", .str (search_term.getD "")),
     ("total_found", .int unique_assets.length),
     ("assets", .list ((unique_assets.take max_results).map PyVal.str))])

end UnrealAssets

/-- `.upper()` on an embedded value: a string method, anything else raises. -/
def pyUpperVal (v : PyVal) : Except String String :=
  match v with
  | .str s => .ok (pyUpper s)
  | _ => .error "AttributeError: no attribute upper"

namespace PyVal

/-- `k in d` for a dict. -/
def hasKey (v : PyVal) (k : String) : Bool :=
  match v with
  | .dict kvs => (kvs.lookup k).isSome
  | _ => false

/-- Python `not v` as a value. -/
def pyNot (v : PyVal) : PyVal := .bool (¬ v.truthy)

/-- `v is None`. -/
def isNone : PyVal → Bool
  | .none => true
  | _ => false

/-- `isinstance(v, list) and len(v) >= n`. -/
def isListLenGe (n : ℕ) : PyVal → Bool
  | .list xs => n ≤ xs.length
  | _ => false

/-- `v[i]` on a list (call sites guard the bound). -/
def idx (v : PyVal) (i : ℕ) : PyVal :=
  match v with
  | .list xs => xs.getD i .none
  | _ => .none

end PyVal

mutual

/-- Python `repr(v)` (best effort; string escaping out of scope). -/
def pyRepr : PyVal → String
  | .none => "None"
  | .bool b => if b then "True" else "False"
  | .int n => toString n
  | .float q => floatRepr q
  | .str s => "'" ++ s ++ "'"
  | .list xs => "[" ++ String.intercalate ", " (pyReprList xs) ++ "]"
  | .dict kvs => "\x7b" ++ String.intercalate ", " (pyReprPairs kvs) ++ "\x7d"

def pyReprList : List PyVal → List String
  | [] => []
  | x :: xs => pyRepr x :: pyReprList xs

def pyReprPairs : List (String × PyVal) → List String
  | [] => []
  | (k, v) :: kvs => ("'" ++ k ++ "': " ++ pyRepr v) :: pyReprPairs kvs

end

/-- Python `str(v)` (as interpolated by an f-string). -/
def pyStrOf (v : PyVal) : String :=
  match v with
  | .str s => s
  | v' => pyRepr v'

/-! ## `unreal_actors.py`

`get_conn` models `get_unreal_connection()` at each call site: the probe it
performs goes over a raw `requests.put`, not `send_command`, so it
contributes no command trace; engine unavailability is an exception from
it. -/

namespace UnrealActors

open UnrealUtils

/-- `unreal_actors.spawn_actor_base` (lines 19–83): format the transform,
spawn at location/rotation, then set label and scale; any exception yields
`None`. -/
def spawn_actor_base (get_conn : UEM Unit) (actor_class : PyVal)
    (params : PyVal) : UEM (Option String) :=
  UEM.tryCatch
    (do
      get_conn
      let transform ←
        match format_transform_params params with
        | .ok t => pure t
        | .error e => UEM.throw e
      let name := get_common_actor_name params "NewActor"
      let spawn_params :=
        [("ActorClass", actor_class)] ++
        (if transform.hasKey "location" then
          [("Location", transform.get "location")] else []) ++
        (if transform.hasKey "rotation" then
          [("Rotation", transform.get "rotation")] else [])
      let spawn_result ← UnrealConnection.send_command
        "/Script/EditorScriptingUtilities.Default__EditorLevelLibrary"
        "SpawnActorFromClass" spawn_params
      let actor_path := spawn_result.getD "ReturnValue" (.str "")
      if ¬ actor_path.truthy then pure Option.none
      else
        match actor_path with
        | .str p => do
            let _ ← UnrealConnection.send_command p "SetActorLabel"
              [("NewActorLabel", name)]
            if transform.hasKey "scale" then do
              let _ ← UnrealConnection.send_command p "SetActorScale3D"
                [("NewScale3D", transform.get "scale")]
              pure (some p)
            else pure (some p)
        | _ => UEM.throw "TypeError: expected a string actor path")
    (fun _ => pure Option.none)

/-- `unreal_actors.create_static_mesh_actor` (lines 85–173): resolve the
mesh from an explicit path or the `BASIC_SHAPES` table (an unknown name
with no explicit path is an early `return` of an error string naming the
supported set, before any remote call), spawn via `spawn_actor_base`,
fetch the mesh component, set the mesh, then material override or
dynamic-material color; every exception becomes a result string. -/
def create_static_mesh_actor (get_conn : UEM Unit) (kwargs_str : PyVal) :
    UEM String :=
  UEM.tryCatch
    (do
      get_conn
      let params ←
        match parse_kwargs kwargs_str with
        | .ok p => pure p
        | .error e => UEM.throw e
      let mesh_type ←
        match pyUpperVal (params.getD "mesh_type" (.str "CUBE")) with
        | .ok s => pure s
        | .error e => UEM.throw e
      let mesh_path0 := PyVal.pyOr (params.get "static_mesh_asset_path")
        (params.get "static_mesh")
      match
        (if ¬ mesh_path0.truthy then
          match BASIC_SHAPES.lookup mesh_type with
          | some p => Sum.inl (PyVal.str p)
          | Option.none =>
              Sum.inr ("Error: Unsupported mesh type '" ++ mesh_type ++
                "'. Supported types are: " ++
                String.intercalate ", " (BASIC_SHAPES.map Prod.fst))
        else Sum.inl mesh_path0 : Sum PyVal String) with
      | Sum.inr err => pure err
      | Sum.inl mesh_path => do
        let name := get_common_actor_name params
          ("My" ++ pyCapitalize mesh_type)
        let actor_path? ← spawn_actor_base get_conn
          (.str "/Script/Engine.StaticMeshActor") params
        match actor_path? with
        | Option.none => pure "Error: Failed to spawn static mesh actor"
        | some actor_path => do
          let component_path ← UnrealConnection.get_component_by_class
            actor_path "/Script/Engine.StaticMeshComponent"
          if ¬ component_path.truthy then
            pure "Error: Failed to get StaticMeshComponent"
          else
            match component_path with
            | .str cp => do
              let _ ← UnrealConnection.send_command cp "SetStaticMesh"
                [("NewMesh", mesh_path)]
              let material_override := params.get "material_override"
              let color := PyVal.pyOr (params.get "color")
                (params.get "material_color")
              if material_override.truthy then do
                let _ ← UnrealConnection.send_command cp "SetMaterial"
                  [("ElementIndex", .int 0), ("Material", material_override)]
                pure ("Successfully created " ++ pyStrOf name ++
                  " actor at position " ++
                  pyStrOf (params.getD "location"
                    (.list [.int 0, .int 0, .int 0])))
              else if color.truthy && color.isListLenGe 3 then do
                let create_mat_result ← UnrealConnection.send_command cp
                  "CreateDynamicMaterialInstance"
                  [("ElementIndex", .int 0),
                   ("SourceMaterial",
                    .str "/Engine/BasicShapes/BasicShapeMaterial.BasicShapeMaterial")]
                let material_path := create_mat_result.getD "ReturnValue" (.str "")
                if material_path.truthy then
                  match material_path with
                  | .str mp => do
                    let color_param :=
                      [("R", color.idx 0), ("G", color.idx 1),
                       ("B", color.idx 2),
                       ("A", if color.isListLenGe 4 then color.idx 3
                             else .float 1)]
                    let _ ← UnrealConnection.send_command mp
                      "SetVectorParameterValue"
                      [("ParameterName", .str "Color"),
                       ("Value", .dict color_param)]
                    pure ("Successfully created " ++ pyStrOf name ++
                      " actor at position " ++
                      pyStrOf (params.getD "location"
                        (.list [.int 0, .int 0, .int 0])))
                  | _ => UEM.throw "TypeError: expected a string material path"
                else
                  pure ("Successfully created " ++ pyStrOf name ++
                    " actor at position " ++
                    pyStrOf (params.getD "location"
                      (.list [.int 0, .int 0, .int 0])))
              else
                pure ("Successfully created " ++ pyStrOf name ++
                  " actor at position " ++
                  pyStrOf (params.getD "location"
                    (.list [.int 0, .int 0, .int 0])))
            | _ => UEM.throw "TypeError: expected a string component path")
    (fun e => pure ("Error creating static mesh actor: " ++ e))

/-- `unreal_actors.modify_actor` (lines 239–340): require `actor_label`,
look the actor up by label, then independently apply whichever of
location, rotation, scale, visibility and color are present, in that
order; every exception becomes a result string. A truthy non-string label
never matches a remote label, so lookup yields "not found" for it. -/
def modify_actor (get_conn : UEM Unit) (kwargs_str : PyVal) : UEM String :=
  UEM.tryCatch
    (do
      get_conn
      let params ←
        match parse_kwargs kwargs_str with
        | .ok p => pure p
        | .error e => UEM.throw e
      let actor_label := params.get "actor_label"
      let vr := validate_required_params params ["actor_label"]
      if ¬ vr.1 then pure vr.2
      else do
        let actor_path? ←
          match actor_label with
          | .str al => UnrealConnection.find_actor_by_label al
          | _ => pure Option.none
        match actor_path? with
        | Option.none =>
            pure ("Actor '" ++ pyStrOf actor_label ++
              "' not found in the current level.")
        | some actor_path => do
          let transform ←
            match format_transform_params params with
            | .ok t => pure t
            | .error e => UEM.throw e
          if transform.hasKey "location" then do
            let _ ← UnrealConnection.send_command actor_path
              "SetActorLocation" [("NewLocation", transform.get "location")]
          if transform.hasKey "rotation" then do
            let _ ← UnrealConnection.send_command actor_path
              "SetActorRotation" [("NewRotation", transform.get "rotation")]
          if transform.hasKey "scale" then do
            let _ ← UnrealConnection.send_command actor_path
              "SetActorScale3D" [("NewScale3D", transform.get "scale")]
          let visible := params.get "visible"
          if ¬ visible.isNone then do
            let _ ← UnrealConnection.send_command actor_path
              "SetActorHiddenInGame" [("bNewHidden", visible.pyNot)]
          let color := PyVal.pyOr (params.get "color")
            (params.get "material_color")
          if color.truthy && color.isListLenGe 3 then do
            let component_path ← UnrealConnection.get_component_by_class
              actor_path "/Script/Engine.StaticMeshComponent"
            if component_path.truthy then
              match component_path with
              | .str cp => do
                let create_mat_result ← UnrealConnection.send_command cp
                  "CreateDynamicMaterialInstance"
                  [("ElementIndex", .int 0),
                   ("SourceMaterial",
                    .str "/Engine/BasicShapes/BasicShapeMaterial.BasicShapeMaterial")]
                let material_path := create_mat_result.getD "ReturnValue" (.str "")
                if material_path.truthy then
                  match material_path with
                  | .str mp => do
                    let color_param :=
                      [("R", color.idx 0), ("G", color.idx 1),
                       ("B", color.idx 2),
                       ("A", if color.isListLenGe 4 then color.idx 3
                             else .float 1)]
                    let _ ← UnrealConnection.send_command mp
                      "SetVectorParameterValue"
                      [("ParameterName", .str "Color"),
                       ("Value", .dict color_param)]
                    pure ()
                  | _ => UEM.throw "TypeError: expected a string material path"
                else pure ()
              | _ => UEM.throw "TypeError: expected a string component path"
            else pure ()
          else pure ()
          pure ("Successfully modified actor: " ++ pyStrOf actor_label))
    (fun e => pure ("Error modifying actor: " ++ e))

end UnrealActors

/-- Numeric coercion for Python arithmetic on embedded values. -/
def pyNum (v : PyVal) : Except String ℚ :=
  match v with
  | .int n => .ok (mkRat n 1)
  | .float q => .ok q
  | .bool b => .ok (if b then 1 else 0)
  | _ => .error "TypeError: unsupported operand type"

/-- `v == s` for a string literal `s` (Python equality across types is
`False`). -/
def pyEqStr (v : PyVal) (s : String) : Bool :=
  match v with
  | .str t => t = s
  | _ => false

namespace UnrealModeling

/-- `mesh_map` (unreal_modeling.py lines 92–98), in dict order. -/
def mesh_map : List (String × String) :=
  [("CUBE", "/Engine/BasicShapes/Cube.Cube"),
   ("SPHERE", "/Engine/BasicShapes/Sphere.Sphere"),
   ("CYLINDER", "/Engine/BasicShapes/Cylinder.Cylinder"),
   ("PLANE", "/Engine/BasicShapes/Plane.Plane"),
   ("CONE", "/Engine/BasicShapes/Cone.Cone")]

/-- The `{"X": .., "Y": .., "Z": ..}` conversion at lines 119–122 (ints
`0`/`1` as written in the source for the default case). -/
def xyz_param (v : PyVal) (d : Int) : PyVal :=
  if v.isListLenGe 3 then
    .dict [("X", v.idx 0), ("Y", v.idx 1), ("Z", v.idx 2)]
  else .dict [("X", .int d), ("Y", .int d), ("Z", .int d)]

/-- The `{"Pitch": .., "Yaw": .., "Roll": ..}` conversion at lines 124–127. -/
def pyr_param (v : PyVal) : PyVal :=
  if v.isListLenGe 3 then
    .dict [("Pitch", v.idx 0), ("Yaw", v.idx 1), ("Roll", v.idx 2)]
  else .dict [("Pitch", .int 0), ("Yaw", .int 0), ("Roll", .int 0)]

/-- `unreal_modeling.create_static_mesh_actor` (lines 68–218): unlike the
`unreal_actors` variant, an unknown `mesh_type` with no explicit asset path
silently falls back to the CUBE mesh (lines 104–108) and the actor is
spawned anyway; every exception becomes a result string. -/
def create_static_mesh_actor (get_conn : UEM Unit) (kwargs : PyVal) :
    UEM String :=
  UEM.tryCatch
    (do
      get_conn
      let params ←
        match parse_kwargs kwargs with
        | .ok p => pure p
        | .error e => UEM.throw e
      let mesh_path0 := params.get "static_mesh_asset_path"
      let mesh_type ←
        match pyUpperVal (params.getD "mesh_type" (.str "")) with
        | .ok s => pure s
        | .error e => UEM.throw e
      let mesh_path : PyVal :=
        if ¬ mesh_path0.truthy then
          match mesh_map.lookup mesh_type with
          | some p => .str p
          | Option.none => .str "/Engine/BasicShapes/Cube.Cube"
        else mesh_path0
      let name := PyVal.pyOr (params.get "actor_label")
        (PyVal.pyOr (params.get "name") (.str "NewMesh"))
      let location := params.getD "location" (.list [.int 0, .int 0, .int 0])
      let rotation := params.getD "rotation" (.list [.int 0, .int 0, .int 0])
      let scale := params.getD "scale" (.list [.int 1, .int 1, .int 1])
      let location_param := xyz_param location 0
      let rotation_param := pyr_param rotation
      let spawn_result ← UnrealConnection.send_command
        "/Script/EditorScriptingUtilities.Default__EditorLevelLibrary"
        "SpawnActorFromClass"
        [("ActorClass", .str "/Script/Engine.StaticMeshActor"),
         ("Location", location_param), ("Rotation", rotation_param)]
      let actor_path := spawn_result.getD "ReturnValue" (.str "")
      if ¬ actor_path.truthy then pure "Error: Failed to spawn actor"
      else
        match actor_path with
        | .str ap => do
          let component_result ← UnrealConnection.send_command ap
            "GetComponentByClass"
            [("ComponentClass", .str "/Script/Engine.StaticMeshComponent")]
          let component_path := component_result.getD "ReturnValue" (.str "")
          if ¬ component_path.truthy then
            pure "Error: Failed to get StaticMeshComponent"
          else
            match component_path with
            | .str cp => do
              let _ ← UnrealConnection.send_command cp "SetStaticMesh"
                [("NewMesh", mesh_path)]
              if scale.isListLenGe 3 then do
                let _ ← UnrealConnection.send_command ap "SetActorScale3D"
                  [("NewScale3D",
                    .dict [("X", scale.idx 0), ("Y", scale.idx 1),
                           ("Z", scale.idx 2)])]
              let _ ← UnrealConnection.send_command ap "SetActorLabel"
                [("NewActorLabel", name)]
              let material_override := params.get "material_override"
              let material_color := PyVal.pyOr (params.get "material_color")
                (params.get "color")
              if material_override.truthy then do
                let _ ← UnrealConnection.send_command cp "SetMaterial"
                  [("ElementIndex", .int 0), ("Material", material_override)]
              else if material_color.truthy && material_color.isListLenGe 3 then do
                let create_mat_result ← UnrealConnection.send_command cp
                  "CreateDynamicMaterialInstance"
                  [("ElementIndex", .int 0),
                   ("SourceMaterial",
                    .str "/Engine/BasicShapes/BasicShapeMaterial.BasicShapeMaterial")]
                let material_path := create_mat_result.getD "ReturnValue" (.str "")
                if material_path.truthy then
                  match material_path with
                  | .str mp => do
                    let _ ← UnrealConnection.send_command mp
                      "SetVectorParameterValue"
                      [("ParameterName", .str "Color"),
                       ("Value",
                        .dict [("R", material_color.idx 0),
                               ("G", material_color.idx 1),
                               ("B", material_color.idx 2),
                               ("A", .float 1)])]
                  | _ => UEM.throw "TypeError: expected a string material path"
              pure ("Successfully created " ++ pyStrOf name ++
                " actor at path " ++ ap)
            | _ => UEM.throw "TypeError: expected a string component path"
        | _ => UEM.throw "TypeError: expected a string actor path")
    (fun e => pure ("Error creating static mesh actor: " ++ e))

end UnrealModeling

namespace CompositeMeshes

/-- `base_loc[0]`, `base_loc[1]`, `base_loc[2]` as used by every recipe:
a valid base vector is a list with at least three numeric components
(anything else raises, caught by the recipe's `except`). -/
def tripleOf (v : PyVal) : Except String (ℚ × ℚ × ℚ) :=
  match v with
  | .list (a :: b :: c :: _) => do
      pure (← pyNum a, ← pyNum b, ← pyNum c)
  | .list _ => .error "IndexError: list index out of range"
  | _ => .error "TypeError: object is not subscriptable"

/-- The recipes call the free module-level name `create_static_mesh_actor`,
which `composite_meshes.py` neither defines nor imports; Python resolves it
at call time, so the binding is a parameter: absent, the call raises the
`NameError` the shipped module would raise. The first (`ctx`) argument is
always `None` and is omitted. -/
def call_csma (csma : Option (PyVal → UEM PyVal)) (p : PyVal) : UEM PyVal :=
  match csma with
  | some f => f p
  | Option.none =>
      UEM.throw "NameError: name 'create_static_mesh_actor' is not defined"

/-- Sequential `for` loop issuing one recipe part per element. -/
def forEach {α : Type} (xs : List α) (f : α → UEM PyVal) : UEM Unit :=
  match xs with
  | [] => pure ()
  | x :: rest => do
      let _ ← f x
      forEach rest f

/-- `composite_meshes.create_tower_composite` (lines 132–170). -/
def create_tower_composite (get_conn : UEM Unit)
    (csma : Option (PyVal → UEM PyVal)) (name base_loc base_sc
    material_color : PyVal) : UEM String :=
  UEM.tryCatch
    (do
      get_conn
      let (lx, ly, lz) ←
        match tripleOf base_loc with
        | .ok t => pure t
        | .error e => UEM.throw e
      let (sx, sy, sz) ←
        match tripleOf base_sc with
        | .ok t => pure t
        | .error e => UEM.throw e
      let n := pyStrOf name
      let _ ← call_csma csma (.dict
        [("actor_label", .str (n ++ "_Base")), ("mesh_type", .str "CUBE"),
         ("location", .list [.float lx, .float ly, .float lz]),
         ("scale", .list [.float (qMul sx (mkRat 3 2)),
                          .float (qMul sy (mkRat 3 2)),
                          .float (qMul sz (mkRat 1 5))]),
         ("material_color", material_color)])
      let _ ← call_csma csma (.dict
        [("actor_label", .str (n ++ "_Body")), ("mesh_type", .str "CYLINDER"),
         ("location", .list [.float lx, .float ly,
                             .float (qAdd lz (qMul sz 1))]),
         ("scale", .list [.float sx, .float sy, .float (qMul sz 2)]),
         ("material_color", material_color)])
      let _ ← call_csma csma (.dict
        [("actor_label", .str (n ++ "_Top")), ("mesh_type", .str "CONE"),
         ("location", .list [.float lx, .float ly,
                             .float (qAdd lz (qMul sz 3))]),
         ("scale", .list [.float (qMul sx (mkRat 6 5)),
                          .float (qMul sy (mkRat 6 5)),
                          .float (qMul sz 1)]),
         ("material_color", material_color)])
      pure ("Successfully created Tower composite: " ++ n))
    (fun e => pure ("Error creating tower composite: " ++ e))

/-- `composite_meshes.create_wall_composite` (lines 172–214). -/
def create_wall_composite (get_conn : UEM Unit)
    (csma : Option (PyVal → UEM PyVal)) (name base_loc base_sc
    material_color : PyVal) : UEM String :=
  UEM.tryCatch
    (do
      get_conn
      let (lx, ly, lz) ←
        match tripleOf base_loc with
        | .ok t => pure t
        | .error e => UEM.throw e
      let (sx, sy, sz) ←
        match tripleOf base_sc with
        | .ok t => pure t
        | .error e => UEM.throw e
      let n := pyStrOf name
      let _ ← call_csma csma (.dict
        [("actor_label", .str (n ++ "_Base")), ("mesh_type", .str "CUBE"),
         ("location", .list [.float lx, .float ly, .float lz]),
         ("scale", .list [.float (qMul sx 8), .float (qMul sy (mkRat 1 2)),
                          .float (qMul sz (mkRat 1 5))]),
         ("material_color", material_color)])
      let _ ← call_csma csma (.dict
        [("actor_label", .str (n ++ "_Wall")), ("mesh_type", .str "CUBE"),
         ("location", .list [.float lx, .float ly,
                             .float (qAdd lz (qMul sz 1))]),
         ("scale", .list [.float (qMul sx 8), .float (qMul sy (mkRat 1 2)),
                          .float (qMul sz 2)]),
         ("material_color", material_color)])
      let spacing := qMul sx (mkRat 4 5)
      let start_x := qSub lx (qMul sx (mkRat 7 2))
      -- for i in range(10)
      forEach ([0, 1, 2, 3, 4, 5, 6, 7, 8, 9] : List ℕ) (fun i =>
        call_csma csma (.dict
          [("actor_label", .str (n ++ "_Battlement_" ++ toString i)),
           ("mesh_type", .str "CUBE"),
           ("location", .list
             [.float (qAdd start_x (qMul (mkRat i 1) spacing)),
              .float ly, .float (qAdd lz (qMul sz 3))]),
           ("scale", .list [.float (qMul sx (mkRat 2 5)),
                            .float (qMul sy (mkRat 1 2)),
                            .float (qMul sz (mkRat 1 2))]),
           ("material_color", material_color)]))
      pure ("Successfully created Wall composite: " ++ n))
    (fun e => pure ("Error creating wall composite: " ++ e))

/-- `composite_meshes.create_stairs_composite` (lines 216–246). -/
def create_stairs_composite (get_conn : UEM Unit)
    (csma : Option (PyVal → UEM PyVal)) (name base_loc base_sc
    material_color : PyVal) : UEM String :=
  UEM.tryCatch
    (do
      get_conn
      let (lx, ly, lz) ←
        match tripleOf base_loc with
        | .ok t => pure t
        | .error e => UEM.throw e
      let (sx, sy, sz) ←
        match tripleOf base_sc with
        | .ok t => pure t
        | .error e => UEM.throw e
      let n := pyStrOf name
      -- num_steps = 10; for i in range(num_steps)
      forEach ([0, 1, 2, 3, 4, 5, 6, 7, 8, 9] : List ℕ) (fun i =>
        call_csma csma (.dict
          [("actor_label", .str (n ++ "_Step_" ++ toString i)),
           ("mesh_type", .str "CUBE"),
           ("location", .list
             [.float (qAdd lx (qMul (qMul (mkRat i 1) sx) (mkRat 1 2))),
              .float ly,
              .float (qAdd lz (qMul (qMul (mkRat i 1) sz) (mkRat 1 2)))]),
           ("scale", .list [.float (qMul sx 1), .float (qMul sy 2),
                            .float (qMul sz (mkRat 1 4))]),
           ("material_color", material_color)]))
      pure ("Successfully created Stairs composite: " ++ n))
    (fun e => pure ("Error creating stairs composite: " ++ e))

/-- `composite_meshes.create_table_chair_composite` (lines 248–341): one
table top, four table legs, and four chairs of a seat, a back and four
legs each. -/
def create_table_chair_composite (get_conn : UEM Unit)
    (csma : Option (PyVal → UEM PyVal)) (name base_loc base_sc
    material_color : PyVal) : UEM String :=
  UEM.tryCatch
    (do
      get_conn
      let (lx, ly, lz) ←
        match tripleOf base_loc with
        | .ok t => pure t
        | .error e => UEM.throw e
      let (sx, sy, sz) ←
        match tripleOf base_sc with
        | .ok t => pure t
        | .error e => UEM.throw e
      let n := pyStrOf name
      -- table top
      let _ ← call_csma csma (.dict
        [("actor_label", .str (n ++ "_Table_Top")), ("mesh_type", .str "CUBE"),
         ("location", .list [.float lx, .float ly,
                             .float (qAdd lz (qMul sz 1))]),
         ("scale", .list [.float (qMul sx 2), .float (qMul sy 3),
                          .float (qMul sz (mkRat 1 5))]),
         ("material_color", material_color)])
      -- table legs
      let leg_positions : List (ℚ × ℚ × ℚ) :=
        [(qMul sx (mkRat 3 2), qMul sy (mkRat 5 2), 0),
         (qMul sx (mkRat 3 2), qNeg (qMul sy (mkRat 5 2)), 0),
         (qNeg (qMul sx (mkRat 3 2)), qMul sy (mkRat 5 2), 0),
         (qNeg (qMul sx (mkRat 3 2)), qNeg (qMul sy (mkRat 5 2)), 0)]
      forEach leg_positions.enum (fun ipos =>
        call_csma csma (.dict
          [("actor_label", .str (n ++ "_Table_Leg_" ++ toString ipos.1)),
           ("mesh_type", .str "CYLINDER"),
           ("location", .list
             [.float (qAdd lx ipos.2.1), .float (qAdd ly ipos.2.2.1),
              .float (qAdd lz (qMul sz (mkRat 1 2)))]),
           ("scale", .list [.float (qMul sx (mkRat 1 5)),
                            .float (qMul sy (mkRat 1 5)),
                            .float (qMul sz 1)]),
           ("material_color", material_color)]))
      -- chairs
      let chair_positions : List (ℚ × ℚ × ℚ) :=
        [(0, qMul sy (mkRat 9 2), 0),
         (0, qNeg (qMul sy (mkRat 9 2)), 0),
         (qMul sx 3, 0, 0),
         (qNeg (qMul sx 3), 0, 0)]
      forEach chair_positions.enum (fun ipos => do
        let i := ipos.1
        let px := ipos.2.1
        let py := ipos.2.2.1
        let _ ← call_csma csma (.dict
          [("actor_label", .str (n ++ "_Chair_Seat_" ++ toString i)),
           ("mesh_type", .str "CUBE"),
           ("location", .list
             [.float (qAdd lx px), .float (qAdd ly py),
              .float (qAdd lz (qMul sz (mkRat 3 5)))]),
           ("scale", .list [.float (qMul sx 1), .float (qMul sy 1),
                            .float (qMul sz (mkRat 1 10))]),
           ("material_color", material_color)])
        let _ ← call_csma csma (.dict
          [("actor_label", .str (n ++ "_Chair_Back_" ++ toString i)),
           ("mesh_type", .str "CUBE"),
           ("location", .list
             [.float (qAdd lx px),
              .float (qSub (qAdd ly py) (qMul sy (mkRat 1 2))),
              .float (qAdd lz (qMul sz (mkRat 13 10)))]),
           ("scale", .list [.float (qMul sx 1), .float (qMul sy (mkRat 1 10)),
                            .float (qMul sz (mkRat 4 5))]),
           ("material_color", material_color)])
        -- for j in range(4)
        forEach ([0, 1, 2, 3] : List ℕ) (fun j =>
          let x_offset : ℚ := if j % 2 = 0 then mkRat 2 5 else qNeg (mkRat 2 5)
          let y_offset : ℚ := if j < 2 then mkRat 2 5 else qNeg (mkRat 2 5)
          call_csma csma (.dict
            [("actor_label",
              .str (n ++ "_Chair_Leg_" ++ toString i ++ "_" ++ toString j)),
             ("mesh_type", .str "CYLINDER"),
             ("location", .list
               [.float (qAdd (qAdd lx px) (qMul x_offset sx)),
                .float (qAdd (qAdd ly py) (qMul y_offset sy)),
                .float (qAdd lz (qMul sz (mkRat 3 10)))]),
             ("scale", .list [.float (qMul sx (mkRat 1 10)),
                              .float (qMul sy (mkRat 1 10)),
                              .float (qMul sz (mkRat 3 5))]),
             ("material_color", material_color)]))
        pure (PyVal.none))
      pure ("Successfully created Table and Chairs composite: " ++ n))
    (fun e => pure ("Error creating table and chairs composite: " ++ e))

/-- `composite_meshes.create_house_composite` (lines 343–424): several
parts hardcode their own colors instead of the caller's. -/
def create_house_composite (get_conn : UEM Unit)
    (csma : Option (PyVal → UEM PyVal)) (name base_loc base_sc
    material_color : PyVal) : UEM String :=
  UEM.tryCatch
    (do
      get_conn
      let (lx, ly, lz) ←
        match tripleOf base_loc with
        | .ok t => pure t
        | .error e => UEM.throw e
      let (sx, sy, sz) ←
        match tripleOf base_sc with
        | .ok t => pure t
        | .error e => UEM.throw e
      let n := pyStrOf name
      let _ ← call_csma csma (.dict
        [("actor_label", .str (n ++ "_Foundation")), ("mesh_type", .str "CUBE"),
         ("location", .list [.float lx, .float ly, .float lz]),
         ("scale", .list [.float (qMul sx 5), .float (qMul sy 6),
                          .float (qMul sz (mkRat 1 5))]),
         ("material_color", material_color)])
      let _ ← call_csma csma (.dict
        [("actor_label", .str (n ++ "_MainBody")), ("mesh_type", .str "CUBE"),
         ("location", .list [.float lx, .float ly,
                             .float (qAdd lz (qMul sz 2))]),
         ("scale", .list [.float (qMul sx (mkRat 9 2)),
                          .float (qMul sy (mkRat 11 2)),
                          .float (qMul sz 2)]),
         ("material_color", material_color)])
      let _ ← call_csma csma (.dict
        [("actor_label", .str (n ++ "_Roof")), ("mesh_type", .str "CUBE"),
         ("location", .list [.float lx, .float ly,
                             .float (qAdd lz (qMul sz (mkRat 9 2)))]),
         ("rotation", .list [.int 0, .int 0, .int 0]),
         ("scale", .list [.float (qMul sx 5), .float (qMul sy 6),
                          .float (qMul sz (mkRat 3 2))]),
         ("material_color", .list [.float (mkRat 4 5), .float (mkRat 2 5),
                                   .float (mkRat 1 5)])])
      let _ ← call_csma csma (.dict
        [("actor_label", .str (n ++ "_Door")), ("mesh_type", .str "CUBE"),
         ("location", .list
           [.float lx, .float (qAdd ly (qMul sy (mkRat 11 2))),
            .float (qAdd lz (qMul sz (mkRat 5 4)))]),
         ("scale", .list [.float (qMul sx (mkRat 4 5)),
                          .float (qMul sy (mkRat 1 10)),
                          .float (qMul sz (mkRat 5 4))]),
         ("material_color", .list [.float (mkRat 2 5), .float (mkRat 1 5),
                                   .float (mkRat 1 10)])])
      let window_positions : List (ℚ × ℚ × ℚ) :=
        [(qMul sx 2, qMul sy 3, qMul sz (mkRat 5 2)),
         (qMul sx (-2), qMul sy 3, qMul sz (mkRat 5 2)),
         (qMul sx 2, qMul sy (-3), qMul sz (mkRat 5 2)),
         (qMul sx (-2), qMul sy (-3), qMul sz (mkRat 5 2))]
      forEach window_positions.enum (fun ipos =>
        call_csma csma (.dict
          [("actor_label", .str (n ++ "_Window_" ++ toString ipos.1)),
           ("mesh_type", .str "CUBE"),
           ("location", .list
             [.float (qAdd lx ipos.2.1), .float (qAdd ly ipos.2.2.1),
              .float (qAdd lz ipos.2.2.2)]),
           ("scale", .list [.float (qMul sx (mkRat 3 5)),
                            .float (qMul sy (mkRat 1 10)),
                            .float (qMul sz (mkRat 3 5))]),
           ("material_color", .list [.float (mkRat 1 10), .float (mkRat 3 5),
                                     .float (mkRat 9 10)])]))
      let _ ← call_csma csma (.dict
        [("actor_label", .str (n ++ "_Chimney")), ("mesh_type", .str "CUBE"),
         ("location", .list
           [.float (qAdd lx (qMul sx (mkRat 5 2))),
            .float (qAdd ly (qMul sy 2)),
            .float (qAdd lz (qMul sz 6))]),
         ("scale", .list [.float (qMul sx (mkRat 1 2)),
                          .float (qMul sy (mkRat 1 2)),
                          .float (qMul sz 2)]),
         ("material_color", .list [.float (mkRat 1 2), .float (mkRat 3 10),
                                   .float (mkRat 1 5)])])
      pure ("Successfully created House composite: " ++ n))
    (fun e => pure ("Error creating house composite: " ++ e))

/-- `composite_meshes.create_composite_mesh` (lines 69–129): parse the
blob, normalize location/scale/color, dispatch on the composition type.
Note the source's precedence: `params.get('shape') or
params.get('composition_type', 'TOWER').upper()` uppercases only the
`composition_type` fallback, never a given `shape`. -/
def create_composite_mesh (get_conn : UEM Unit)
    (csma : Option (PyVal → UEM PyVal)) (kwargs : PyVal) : UEM String :=
  UEM.tryCatch
    (do
      let params ←
        match parse_kwargs kwargs with
        | .ok p => pure p
        | .error e => UEM.throw e
      let composition_type ←
        if (params.get "shape").truthy then pure (params.get "shape")
        else
          match pyUpperVal (params.getD "composition_type" (.str "TOWER")) with
          | .ok s => pure (PyVal.str s)
          | .error e => UEM.throw e
      let name ←
        if (params.get "label").truthy then pure (params.get "label")
        else if (params.get "name").truthy then pure (params.get "name")
        else
          match pyLowerVal composition_type with
          | .ok s => pure (PyVal.str s)
          | .error e => UEM.throw e
      let location0 := params.get "location"
      let location ←
        match location0 with
        | .str s =>
            if s.toList.contains ',' then
              match (pySplitChar ',' s).mapM pyFloat with
              | some qs => pure (PyVal.list (qs.map PyVal.float))
              | Option.none =>
                  UEM.throw "ValueError: could not convert string to float"
            else pure location0
        | v => pure v
      let base_loc := PyVal.pyOr location (.list [.int 0, .int 0, .int 0])
      let scale0 := PyVal.pyOr (params.get "scale") (params.get "size")
      let scale ←
        match scale0 with
        | .str s =>
            if s.toList.contains ',' then
              match (pySplitChar ',' s).mapM pyFloat with
              | some qs => pure (PyVal.list (qs.map PyVal.float))
              | Option.none =>
                  UEM.throw "ValueError: could not convert string to float"
            else pure scale0
        | v => pure v
      let base_sc := PyVal.pyOr scale (.list [.int 1, .int 1, .int 1])
      let material_color := PyVal.pyOr (params.get "color")
        (params.get "material_color")
      if pyEqStr composition_type "TOWER" then
        create_tower_composite get_conn csma name base_loc base_sc material_color
      else if pyEqStr composition_type "WALL" then
        create_wall_composite get_conn csma name base_loc base_sc material_color
      else if pyEqStr composition_type "STAIRS" then
        create_stairs_composite get_conn csma name base_loc base_sc material_color
      else if pyEqStr composition_type "TABLE_CHAIR" then
        create_table_chair_composite get_conn csma name base_loc base_sc
          material_color
      else if pyEqStr composition_type "HOUSE" then
        create_house_composite get_conn csma name base_loc base_sc material_color
      else pure ("Unknown composition type: " ++ pyStrOf composition_type))
    (fun e => pure ("Error creating composition: " ++ e))

end CompositeMeshes

namespace CompositeMeshes

/-- Trace-recording instantiation of the free `create_static_mesh_actor`
binding: each call issues exactly one primitive-actor specification,
recorded on the trace. Used to state how many specifications a recipe
issues. -/
def record_csma : PyVal → UEM PyVal :=
  fun p _ tr =>
    (.ok .none,
     tr ++ [⟨"composite_meshes", "create_static_mesh_actor", [("params", p)]⟩])

end CompositeMeshes

/-! ## Theorems -/

theorem UEM.bind_apply {α β : Type} (x : UEM α) (f : α → UEM β)
    (o : UECmd → Except String PyVal) (tr : List UECmd) :
    (x >>= f) o tr =
      match x o tr with
      | (.ok a, tr') => f a o tr'
      | (.error e, tr') => (.error e, tr') := rfl

theorem UEM.pure_apply {α : Type} (a : α) (o : UECmd → Except String PyVal)
    (tr : List UECmd) : (pure a : UEM α) o tr = (.ok a, tr) := rfl

theorem UEM.throw_apply {α : Type} (e : String)
    (o : UECmd → Except String PyVal) (tr : List UECmd) :
    (UEM.throw e : UEM α) o tr = (.error e, tr) := rfl

theorem UEM.tryCatch_apply {α : Type} (x : UEM α) (h : String → UEM α)
    (o : UECmd → Except String PyVal) (tr : List UECmd) :
    UEM.tryCatch x h o tr =
      match x o tr with
      | (.ok a, tr') => (.ok a, tr')
      | (.error e, tr') => h e o tr' := rfl

theorem UnrealConnection.send_command_apply (op fn : String)
    (ps : List (String × PyVal)) (o : UECmd → Except String PyVal)
    (tr : List UECmd) :
    UnrealConnection.send_command op fn ps o tr =
      (match o ⟨op, fn, ps⟩ with
       | .ok v => .ok v
       | .error e => .error ("Communication error with Unreal Engine: " ++ e),
       tr ++ [⟨op, fn, ps⟩]) := by
  unfold UnrealConnection.send_command
  cases h : o ⟨op, fn, ps⟩ <;> simp [h]

/-- C10: `parse_kwargs` in `composite_meshes.py` and `unreal_modeling.py`
returns the decoded JSON value itself; for the input `"42"`, which decodes
to the integer `42`, that result is not a mapping. -/
theorem parse_kwargs_nonmapping_result :
    CompositeMeshes.parse_kwargs (.str "42") = .ok (.int 42)
    ∧ UnrealModeling.parse_kwargs (.str "42") = .ok (.int 42)
    ∧ (PyVal.int 42).isDict = false :=
  ⟨rfl, rfl, rfl⟩

/-- C4: the code keeps the cached connection handle across failures. A
transport-failed `send_command` leaves the module global untouched, and a
subsequent `get_unreal_connection` whose liveness probe fails still
returns the same cached (dead) handle in the still-connected state,
instead of invalidating it and re-probing from scratch. -/
theorem get_unreal_connection_keeps_stale_handle :
    UnrealConnection.send_command_at (fun _ _ => .error "timed out") 0
        ⟨"/Script/UnrealEd.Default__EditorActorSubsystem",
         "GetAllLevelActors", []⟩ (some 0)
      = (.error "Communication error with Unreal Engine: timed out", some 0)
    ∧ UnrealConnection.get_unreal_connection (fun _ => false) 1 (some 0)
      = (.ok 0, some 0)
    ∧ (some 0 : Option ℕ) ≠ Option.none :=
  ⟨rfl, rfl, by decide⟩

/-- C1 (amended): whenever the input is not a list of at least as many
components as there are target keys — so in particular for every shorter
list and for absent input — the Vector Formatter returns the all-default
dict (`0.0` per field, `1.0` for an alpha `"A"` field) without failing:
given components are not kept. With no input and target `[R,G,B,A]` this
is `{R:0, G:0, B:0, A:1.0}`. -/
theorem vector_to_ue_format_default_behavior :
    (∀ (v : PyVal) (keys0 : Option (List String)),
      (∀ xs, v = PyVal.list xs →
        xs.length < (UnrealUtils.effective_keys keys0).length) →
      UnrealUtils.vector_to_ue_format v keys0
        = .ok (UnrealUtils.default_fields (UnrealUtils.effective_keys keys0)))
    ∧ UnrealUtils.vector_to_ue_format .none (some ["R", "G", "B", "A"])
        = .ok (.dict [("R", .float 0), ("G", .float 0), ("B", .float 0),
                      ("A", .float 1)]) := by
  constructor
  · intro v keys0 h
    unfold UnrealUtils.vector_to_ue_format
    cases v with
    | list xs => simp [h xs rfl]
    | none => rfl
    | bool b => rfl
    | int n => rfl
    | float q => rfl
    | str s => rfl
    | dict kvs => rfl
  · rfl

/-- C1 witness: the formatter at the concrete short input `[1, 2]` with
target keys `[X, Y, Z]`, yielding the all-default `{X:0, Y:0, Z:0}`. -/
theorem vector_to_ue_format_default_behavior_witness :
    UnrealUtils.vector_to_ue_format (.list [.int 1, .int 2])
        (some ["X", "Y", "Z"])
      = .ok (.dict [("X", .float 0), ("Y", .float 0), ("Z", .float 0)]) :=
  vector_to_ue_format_default_behavior.1 (.list [.int 1, .int 2])
    (some ["X", "Y", "Z"]) (by intro xs hx; cases hx; decide)

/-- C1 counterexample: with input `[1, 2]` and target keys `[X, Y, Z]` the
code does not keep the given leading components — the result is the
all-default `{X:0, Y:0, Z:0}`, not the claimed `{X:1, Y:2, Z:0}`. -/
theorem vector_to_ue_format_short_counterexample :
    UnrealUtils.vector_to_ue_format (.list [.int 1, .int 2])
        (some ["X", "Y", "Z"])
      ≠ .ok (.dict [("X", .float 1), ("Y", .float 2), ("Z", .float 0)]) := by
  intro h
  rw [show UnrealUtils.vector_to_ue_format (.list [.int 1, .int 2])
      (some ["X", "Y", "Z"])
    = .ok (.dict [("X", .float 0), ("Y", .float 0), ("Z", .float 0)]) from rfl]
    at h
  simp at h

/-- C6 (amended): comma-separated numeric values parse to float lists for
all five vector-typed keys in `unreal_utils.parse_value`, but the
`composite_meshes`/`unreal_modeling` parser copies handle only `location`,
`rotation`, `scale` and `material_color`; their vector set omits `color`,
so `color=1,2,3` stays the raw string `"1,2,3"` there, while
`unreal_utils.parse_kwargs` yields `[1.0, 2.0, 3.0]` for it. -/
theorem parse_value_vector_keys :
    (∀ (key value : String) (qs : List ℚ),
      key ∈ ["location", "rotation", "scale", "color", "material_color"] →
      value.toList.contains ',' = true →
      (pySplitChar ',' value).mapM pyFloat = some qs →
      UnrealUtils.parse_value key value = .ok (.list (qs.map PyVal.float)))
    ∧ (∀ (key value : String) (qs : List ℚ),
      key ∈ ["location", "rotation", "scale", "material_color"] →
      value.toList.contains ',' = true →
      (pySplitChar ',' value).mapM pyFloat = some qs →
      CompositeMeshes.token_value key value = .ok (.list (qs.map PyVal.float))
      ∧ UnrealModeling.token_value key value
          = .ok (.list (qs.map PyVal.float)))
    ∧ UnrealUtils.parse_kwargs (.str "location=1,2,3")
        = .ok (.dict [("location", .list [.float 1, .float 2, .float 3])])
    ∧ CompositeMeshes.parse_kwargs (.str "color=1,2,3")
        = .ok (.dict [("color", .str "1,2,3")])
    ∧ UnrealModeling.parse_kwargs (.str "color=1,2,3")
        = .ok (.dict [("color", .str "1,2,3")]) := by
  refine ⟨?_, ?_, rfl, rfl, rfl⟩
  · intro key value qs hk hc hp
    simp only [List.mem_cons, List.mem_singleton, List.not_mem_nil, or_false] at hk
    have hc' : ',' ∈ value.data := by simpa using hc
    simp only [List.mapM] at hp
    unfold UnrealUtils.parse_value
    rcases hk with h | h | h | h | h <;> subst h <;> simp [hc', hp]
  · intro key value qs hk hc hp
    simp only [List.mem_cons, List.mem_singleton, List.not_mem_nil, or_false] at hk
    have hc' : ',' ∈ value.data := by simpa using hc
    simp only [List.mapM] at hp
    constructor
    · unfold CompositeMeshes.token_value
      rcases hk with h | h | h | h <;> subst h <;> simp [hc', hp]
    · unfold UnrealModeling.token_value
      rcases hk with h | h | h | h <;> subst h <;> simp [hc', hp]

/-- C6 witness: the vector parsing at the concrete token `location=1,2,3`
(`unreal_utils` entry point) and `material_color=1,2,3` (composite copy),
both yielding `[1.0, 2.0, 3.0]`. -/
theorem parse_value_vector_keys_witness :
    UnrealUtils.parse_value "location" "1,2,3"
      = .ok (.list [.float 1, .float 2, .float 3])
    ∧ CompositeMeshes.token_value "material_color" "1,2,3"
      = .ok (.list [.float 1, .float 2, .float 3]) :=
  ⟨parse_value_vector_keys.1 "location" "1,2,3" [1, 2, 3]
      (by decide) (by decide) (by decide),
   (parse_value_vector_keys.2.1 "material_color" "1,2,3" [1, 2, 3]
      (by decide) (by decide) (by decide)).1⟩

/-- C6 counterexample: at the parser entry point of `composite_meshes.py`
the vector-typed key `color` is not in the comma-splitting set, so
`color=1,2,3` parses to the raw string `"1,2,3"` instead of the claimed
float list. -/
theorem composite_color_not_vector_counterexample :
    CompositeMeshes.parse_kwargs (.str "color=1,2,3")
      = .ok (.dict [("color", .str "1,2,3")])
    ∧ PyVal.str "1,2,3" ≠ PyVal.list [.float 1, .float 2, .float 3] :=
  ⟨rfl, fun h => PyVal.noConfusion h⟩

theorem pyDedup_go (l : List String) :
    ∀ acc : List String, acc.Nodup →
      ∃ t, l.foldl (fun acc a => if a ∈ acc then acc else acc ++ [a]) acc
            = acc ++ t ∧ t.Sublist l ∧ (acc ++ t).Nodup := by
  induction l with
  | nil => intro acc h; exact ⟨[], by simp, List.Sublist.refl _, by simpa⟩
  | cons a l ih =>
    intro acc h
    by_cases ha : a ∈ acc
    · obtain ⟨t, h1, h2, h3⟩ := ih acc h
      refine ⟨t, ?_, h2.cons a, h3⟩
      simpa [ha] using h1
    · have h' : (acc ++ [a]).Nodup := by
        simp [List.nodup_append, h, ha]
      obtain ⟨t, h1, h2, h3⟩ := ih (acc ++ [a]) h'
      refine ⟨a :: t, ?_, h2.cons₂ a, ?_⟩
      · rw [List.foldl_cons, if_neg ha] at *
        rw [h1]
        simp
      · rw [show acc ++ a :: t = (acc ++ [a]) ++ t by simp]
        exact h3

/-- C7: for every base path, per-subdirectory outcome and cap, the
recursive multi-subdirectory asset search returns a duplicate-free list
that preserves the first-seen order of the concatenated per-subdirectory
results (a sublist of the concatenation) truncated to at most
`max_results` entries, and that list is exactly the `assets` field of the
returned payload. -/
theorem search_assets_recursively_dedup
    (fetch : String → Except String (List String)) (base_path : String)
    (asset_type search_term : Option String) (max_results : ℕ) :
    ((UnrealAssets.pyDedup (UnrealAssets.search_collect fetch base_path)).take
        max_results).Nodup
    ∧ ((UnrealAssets.pyDedup (UnrealAssets.search_collect fetch base_path)).take
        max_results).Sublist (UnrealAssets.search_collect fetch base_path)
    ∧ ((UnrealAssets.pyDedup (UnrealAssets.search_collect fetch base_path)).take
        max_results).length ≤ max_results
    ∧ UnrealAssets.search_assets_recursively fetch base_path asset_type
        search_term max_results
      = jsonDumps (.dict
          [("asset_type", .str (if (asset_type.getD "").isEmpty then "All"
              else pyCapitalize (asset_type.getD ""))),
           ("search_path", .str base_path),
           ("search_term", .str (search_term.getD "")),
           ("total_found", .int (UnrealAssets.pyDedup
              (UnrealAssets.search_collect fetch base_path)).length),
           ("assets", .list (((UnrealAssets.pyDedup
              (UnrealAssets.search_collect fetch base_path)).take
                max_results).map PyVal.str))]) := by
  obtain ⟨t, h1, h2, h3⟩ :=
    pyDedup_go (UnrealAssets.search_collect fetch base_path) [] (by simp)
  have hd : UnrealAssets.pyDedup (UnrealAssets.search_collect fetch base_path)
      = t := by
    simpa [UnrealAssets.pyDedup] using h1
  have ht : t.Nodup := by simpa using h3
  refine ⟨?_, ?_, ?_, rfl⟩
  · rw [hd]
    exact ht.sublist (List.take_sublist _ _)
  · rw [hd]
    exact (List.take_sublist _ _).trans h2
  · rw [hd, List.length_take]
    exact min_le_left _ _

/-- C2 (amended): with no search term, the path `/Game/Meshes/SM_Bench` is
retained by the `staticmesh` type filter — but it is also retained by the
`material` type filter, because the material identifier `m_` is a
case-insensitive substring of `sm_bench`; it is excluded by a type whose
identifiers do not occur, such as `blueprint`. End to end,
`get_available_assets` with `asset_type=staticmesh` returns the payload
whose `assets` list holds exactly that path. -/
theorem asset_type_filter_on_bench :
    UnrealAssets.filter_assets "staticmesh" (.str "") (.int 20)
        [.str "/Game/Meshes/SM_Bench"] [] = .ok [.str "/Game/Meshes/SM_Bench"]
    ∧ UnrealAssets.filter_assets "material" (.str "") (.int 20)
        [.str "/Game/Meshes/SM_Bench"] [] = .ok [.str "/Game/Meshes/SM_Bench"]
    ∧ UnrealAssets.filter_assets "blueprint" (.str "") (.int 20)
        [.str "/Game/Meshes/SM_Bench"] [] = .ok []
    ∧ (UnrealAssets.get_available_assets (pure ())
        (.str "asset_type=staticmesh")).run
        (fun _ => .ok (.dict [("ReturnValue",
          .list [.str "/Game/Meshes/SM_Bench"])]))
      = (.ok (jsonDumps (UnrealAssets.asset_result "staticmesh"
          (.str "/Game") (.str "") [.str "/Game/Meshes/SM_Bench"])),
         [⟨"/Script/EditorScriptingUtilities.Default__EditorAssetLibrary",
           "ListAssets",
           [("DirectoryPath", .str "/Game"), ("Recursive", .bool true),
            ("IncludeFolder", .bool true)]⟩]) :=
  ⟨rfl, rfl, rfl, rfl⟩

/-- C2 counterexample: the claim says the `material` type filter excludes
`/Game/Meshes/SM_Bench`; in fact the filter retains it (the identifier
`m_` of the material set matches inside `sm_bench`), so the filtered
result is not the empty list. -/
theorem material_filter_retains_bench_counterexample :
    UnrealAssets.filter_assets "material" (.str "") (.int 20)
        [.str "/Game/Meshes/SM_Bench"] [] = .ok [.str "/Game/Meshes/SM_Bench"]
    ∧ UnrealAssets.filter_assets "material" (.str "") (.int 20)
        [.str "/Game/Meshes/SM_Bench"] [] ≠ .ok [] := by
  refine ⟨rfl, ?_⟩
  intro h
  rw [show UnrealAssets.filter_assets "material" (.str "") (.int 20)
      [.str "/Game/Meshes/SM_Bench"] []
    = .ok [.str "/Game/Meshes/SM_Bench"] from rfl] at h
  simp at h

/-- C3 (amended): for every base name, color and valid base location and
scale, the table+chair composite recipe issues exactly 29 primitive-actor
specifications — one table top, four table legs, and four chairs of a
seat, a back and four legs each (1 + 4 + 4×6 = 29) — and reports
success. -/
theorem table_chair_composite_issues_29_specs
    (name base_loc base_sc material_color : PyVal) (lx ly lz sx sy sz : ℚ)
    (o : UECmd → Except String PyVal)
    (h1 : CompositeMeshes.tripleOf base_loc = .ok (lx, ly, lz))
    (h2 : CompositeMeshes.tripleOf base_sc = .ok (sx, sy, sz)) :
    ((CompositeMeshes.create_table_chair_composite (pure ())
        (some CompositeMeshes.record_csma) name base_loc base_sc
        material_color).run o).1
      = .ok ("Successfully created Table and Chairs composite: " ++
          pyStrOf name)
    ∧ ((CompositeMeshes.create_table_chair_composite (pure ())
        (some CompositeMeshes.record_csma) name base_loc base_sc
        material_color).run o).2.length = 29 := by
  unfold CompositeMeshes.create_table_chair_composite
  constructor <;>
    simp [UEM.run, UEM.tryCatch_apply, UEM.bind_apply, UEM.pure_apply,
      UEM.throw_apply, h1, h2, CompositeMeshes.record_csma,
      CompositeMeshes.call_csma, CompositeMeshes.forEach, List.enum,
      List.enumFrom]

/-- C3 witness: the recipe run at base location `[0,0,0]`, base scale
`[1,1,1]`, name `"t"` and no color issues exactly 29 specifications. -/
theorem table_chair_composite_issues_29_specs_witness :
    ((CompositeMeshes.create_table_chair_composite (pure ())
        (some CompositeMeshes.record_csma) (.str "t")
        (.list [.int 0, .int 0, .int 0]) (.list [.int 1, .int 1, .int 1])
        PyVal.none).run (fun _ => .ok .none)).1
      = .ok ("Successfully created Table and Chairs composite: " ++
          pyStrOf (.str "t"))
    ∧ ((CompositeMeshes.create_table_chair_composite (pure ())
        (some CompositeMeshes.record_csma) (.str "t")
        (.list [.int 0, .int 0, .int 0]) (.list [.int 1, .int 1, .int 1])
        PyVal.none).run (fun _ => .ok .none)).2.length = 29 :=
  table_chair_composite_issues_29_specs (.str "t")
    (.list [.int 0, .int 0, .int 0]) (.list [.int 1, .int 1, .int 1])
    PyVal.none 0 0 0 1 1 1 (fun _ => .ok .none) rfl rfl

/-- C3 counterexample: at base location `[0,0,0]`, base scale `[1,1,1]`,
the table+chair recipe does not issue 30 primitive-actor specifications —
it issues 29. -/
theorem table_chair_composite_not_30_counterexample :
    ((CompositeMeshes.create_table_chair_composite (pure ())
        (some CompositeMeshes.record_csma) (.str "t")
        (.list [.int 0, .int 0, .int 0]) (.list [.int 1, .int 1, .int 1])
        PyVal.none).run (fun _ => .ok .none)).2.length ≠ 30 := by
  decide

theorem UEM.tryCatch_pure_handler_ok (x : UEM String) (h : String → String)
    (o : UECmd → Except String PyVal) (tr : List UECmd) :
    ∃ s, (UEM.tryCatch x (fun e => pure (h e)) o tr).1 = .ok s := by
  unfold UEM.tryCatch
  match hx : x o tr with
  | (.ok a, tr') => exact ⟨a, rfl⟩
  | (.error e, tr') => exact ⟨h e, rfl⟩

/-- C9: the cited operation entry points (`create_static_mesh_actor` in
`unreal_actors.py`, `get_available_assets` in `unreal_assets.py`,
`create_composite_mesh` in `composite_meshes.py`) catch every exception —
malformed parameter blobs, connection failures, transport errors, any
oracle behavior, even an unbound recipe callee — and return a string
result; no run ever ends in a raised exception. -/
theorem entry_points_never_raise
    (get_conn : UEM Unit) (kwargs : PyVal)
    (csma : Option (PyVal → UEM PyVal)) (o : UECmd → Except String PyVal) :
    (∃ s, ((UnrealActors.create_static_mesh_actor get_conn kwargs).run o).1
        = .ok s)
    ∧ (∃ s, ((UnrealAssets.get_available_assets get_conn kwargs).run o).1
        = .ok s)
    ∧ (∃ s, ((CompositeMeshes.create_composite_mesh get_conn csma kwargs).run
        o).1 = .ok s) :=
  ⟨UEM.tryCatch_pure_handler_ok _ _ o [],
   UEM.tryCatch_pure_handler_ok _ _ o [],
   UEM.tryCatch_pure_handler_ok _ _ o []⟩

/-- C5 (amended): in `unreal_actors.py`, a create-primitive call whose
`mesh_type` resolves to a name outside the canonical table and that gives
no explicit asset path returns the error naming the supported set (CUBE,
SPHERE, CYLINDER, PLANE, CONE) and issues no remote call. The
`unreal_modeling.py` variant of the same operation instead silently
defaults the unknown type to the CUBE mesh and spawns: at
`mesh_type=TORUS` it spawns an actor, assigns the Cube mesh and reports
success. -/
theorem unknown_mesh_type_behavior :
    (∀ (get_conn : UEM Unit) (kwargs params : PyVal) (mt : String)
      (o : UECmd → Except String PyVal),
      (∀ tr, get_conn o tr = (.ok (), tr)) →
      UnrealUtils.parse_kwargs kwargs = .ok params →
      pyUpperVal (params.getD "mesh_type" (.str "CUBE")) = .ok mt →
      UnrealUtils.BASIC_SHAPES.lookup mt = Option.none →
      (params.get "static_mesh_asset_path").truthy = false →
      (params.get "static_mesh").truthy = false →
      (UnrealActors.create_static_mesh_actor get_conn kwargs).run o
        = (.ok ("Error: Unsupported mesh type '" ++ mt ++
            "'. Supported types are: " ++
            String.intercalate ", " (UnrealUtils.BASIC_SHAPES.map Prod.fst)),
           []))
    ∧ String.intercalate ", " (UnrealUtils.BASIC_SHAPES.map Prod.fst)
        = "CUBE, SPHERE, CYLINDER, PLANE, CONE"
    ∧ (UnrealModeling.create_static_mesh_actor (pure ())
        (.str "mesh_type=TORUS")).run
        (fun _ => .ok (.dict [("ReturnValue", .str "/X")]))
      = (.ok "Successfully created NewMesh actor at path /X",
         [⟨"/Script/EditorScriptingUtilities.Default__EditorLevelLibrary",
           "SpawnActorFromClass",
           [("ActorClass", .str "/Script/Engine.StaticMeshActor"),
            ("Location", .dict [("X", .int 0), ("Y", .int 0), ("Z", .int 0)]),
            ("Rotation", .dict [("Pitch", .int 0), ("Yaw", .int 0),
                                ("Roll", .int 0)])]⟩,
          ⟨"/X", "GetComponentByClass",
           [("ComponentClass", .str "/Script/Engine.StaticMeshComponent")]⟩,
          ⟨"/X", "SetStaticMesh",
           [("NewMesh", .str "/Engine/BasicShapes/Cube.Cube")]⟩,
          ⟨"/X", "SetActorScale3D",
           [("NewScale3D", .dict [("X", .int 1), ("Y", .int 1),
                                  ("Z", .int 1)])]⟩,
          ⟨"/X", "SetActorLabel", [("NewActorLabel", .str "NewMesh")]⟩]) := by
  refine ⟨?_, rfl, rfl⟩
  intro get_conn kwargs params mt o hconn hp hmt hlk h1 h2
  unfold UnrealActors.create_static_mesh_actor
  simp [UEM.run, UEM.tryCatch_apply, UEM.bind_apply, UEM.pure_apply,
    UEM.throw_apply, hconn, hp, hmt, hlk, h1, h2, PyVal.pyOr]

/-- C5 witness: the `unreal_actors` variant at the concrete input
`mesh_type=TORUS` returns the error naming the supported set and issues no
remote call. -/
theorem unknown_mesh_type_behavior_witness :
    (UnrealActors.create_static_mesh_actor (pure ())
        (.str "mesh_type=TORUS")).run (fun _ => .ok .none)
      = (.ok ("Error: Unsupported mesh type 'TORUS'" ++
          ". Supported types are: " ++
          String.intercalate ", " (UnrealUtils.BASIC_SHAPES.map Prod.fst)),
         []) :=
  unknown_mesh_type_behavior.1 (pure ()) (.str "mesh_type=TORUS")
    (.dict [("mesh_type", .str "TORUS")]) "TORUS" (fun _ => .ok .none)
    (fun _ => rfl) rfl rfl rfl rfl rfl

/-- C5 counterexample: the claim fails for the `unreal_modeling.py`
variant of the create-primitive operation: at `mesh_type=TORUS` with no
asset path it reports success rather than the unsupported-type error, and
its first issued remote call is a spawn. -/
theorem modeling_unknown_mesh_spawns_counterexample :
    ((UnrealModeling.create_static_mesh_actor (pure ())
        (.str "mesh_type=TORUS")).run
        (fun _ => .ok (.dict [("ReturnValue", .str "/X")]))).1
      = .ok "Successfully created NewMesh actor at path /X"
    ∧ "Successfully created NewMesh actor at path /X"
      ≠ "Error: Unsupported mesh type 'TORUS'. Supported types are: " ++
        "CUBE, SPHERE, CYLINDER, PLANE, CONE"
    ∧ (((UnrealModeling.create_static_mesh_actor (pure ())
        (.str "mesh_type=TORUS")).run
        (fun _ => .ok (.dict [("ReturnValue", .str "/X")]))).2.head?.map
          UECmd.functionName)
      = some "SpawnActorFromClass" :=
  ⟨rfl, by decide, rfl⟩

theorem PyVal.truthy_none : PyVal.none.truthy = false := rfl

theorem PyVal.truthy_str (s : String) : (PyVal.str s).truthy = !s.isEmpty := rfl

theorem PyVal.truthy_dict (kvs : List (String × PyVal)) :
    (PyVal.dict kvs).truthy = !kvs.isEmpty := rfl

theorem PyVal.truthy_list (xs : List PyVal) :
    (PyVal.list xs).truthy = !xs.isEmpty := rfl

theorem PyVal.truthy_bool (b : Bool) : (PyVal.bool b).truthy = b := rfl

theorem PyVal.isNone_none : PyVal.none.isNone = true := rfl

theorem PyVal.isNone_bool (b : Bool) : (PyVal.bool b).isNone = false := rfl

theorem PyVal.isDict_dict (kvs : List (String × PyVal)) :
    (PyVal.dict kvs).isDict = true := rfl

theorem except_bind_ok {ε α β : Type} (a : α) (f : α → Except ε β) :
    (Except.ok (ε := ε) a >>= f) = f a := rfl

theorem except_bind_err {ε α β : Type} (e : ε) (f : α → Except ε β) :
    (Except.error (α := α) e >>= f) = Except.error e := rfl

/-- C8: after the label lookup, `modify_actor` with only a `location` field
(besides the required label) issues exactly one remote call, the
set-location, and none for rotation, scale, visibility or color; and with
all five fields present the remote calls after the lookup are issued in
the order location, rotation, scale, visibility, color (the color step
being component fetch, material-instance creation and the color-vector
set). Absent fields are skipped, not defaulted. -/
theorem modify_actor_field_dispatch :
    (∀ (al : String) (loc locUe rv : PyVal) (p : String) (ltr : List UECmd)
      (o : UECmd → Except String PyVal),
      al.isEmpty = false →
      loc.truthy = true →
      UnrealUtils.vector_to_ue_format loc Option.none = .ok locUe →
      UnrealConnection.find_actor_by_label al o [] = (.ok (some p), ltr) →
      o ⟨p, "SetActorLocation", [("NewLocation", locUe)]⟩ = .ok rv →
      (UnrealActors.modify_actor (pure ())
          (.dict [("actor_label", .str al), ("location", loc)])).run o
        = (.ok ("Successfully modified actor: " ++ al),
           ltr ++ [⟨p, "SetActorLocation", [("NewLocation", locUe)]⟩]))
    ∧ (∀ (al : String) (loc rot sc locUe rotUe scUe c1 c2 c3 : PyVal)
      (vb : Bool) (p cp mp : String) (ltr : List UECmd)
      (r1 r2 r3 r4 r6 : PyVal) (o : UECmd → Except String PyVal),
      al.isEmpty = false →
      loc.truthy = true → rot.truthy = true → sc.truthy = true →
      UnrealUtils.vector_to_ue_format loc Option.none = .ok locUe →
      UnrealUtils.vector_to_ue_format rot (some ["Pitch", "Yaw", "Roll"])
        = .ok rotUe →
      UnrealUtils.vector_to_ue_format sc Option.none = .ok scUe →
      UnrealConnection.find_actor_by_label al o [] = (.ok (some p), ltr) →
      o ⟨p, "SetActorLocation", [("NewLocation", locUe)]⟩ = .ok r1 →
      o ⟨p, "SetActorRotation", [("NewRotation", rotUe)]⟩ = .ok r2 →
      o ⟨p, "SetActorScale3D", [("NewScale3D", scUe)]⟩ = .ok r3 →
      o ⟨p, "SetActorHiddenInGame", [("bNewHidden", .bool (!vb))]⟩ = .ok r4 →
      o ⟨p, "GetComponentByClass",
        [("ComponentClass", .str "/Script/Engine.StaticMeshComponent")]⟩
        = .ok (.dict [("ReturnValue", .str cp)]) →
      cp.isEmpty = false →
      o ⟨cp, "CreateDynamicMaterialInstance",
        [("ElementIndex", .int 0),
         ("SourceMaterial",
          .str "/Engine/BasicShapes/BasicShapeMaterial.BasicShapeMaterial")]⟩
        = .ok (.dict [("ReturnValue", .str mp)]) →
      mp.isEmpty = false →
      o ⟨mp, "SetVectorParameterValue",
        [("ParameterName", .str "Color"),
         ("Value", .dict [("R", c1), ("G", c2), ("B", c3), ("A", .float 1)])]⟩
        = .ok r6 →
      (UnrealActors.modify_actor (pure ())
          (.dict [("actor_label", .str al), ("location", loc),
                  ("rotation", rot), ("scale", sc), ("visible", .bool vb),
                  ("color", .list [c1, c2, c3])])).run o
        = (.ok ("Successfully modified actor: " ++ al),
           ltr ++
            [⟨p, "SetActorLocation", [("NewLocation", locUe)]⟩,
             ⟨p, "SetActorRotation", [("NewRotation", rotUe)]⟩,
             ⟨p, "SetActorScale3D", [("NewScale3D", scUe)]⟩,
             ⟨p, "SetActorHiddenInGame", [("bNewHidden", .bool (!vb))]⟩,
             ⟨p, "GetComponentByClass",
              [("ComponentClass", .str "/Script/Engine.StaticMeshComponent")]⟩,
             ⟨cp, "CreateDynamicMaterialInstance",
              [("ElementIndex", .int 0),
               ("SourceMaterial",
                .str "/Engine/BasicShapes/BasicShapeMaterial.BasicShapeMaterial")]⟩,
             ⟨mp, "SetVectorParameterValue",
              [("ParameterName", .str "Color"),
               ("Value", .dict [("R", c1), ("G", c2), ("B", c3),
                                ("A", .float 1)])]⟩])) := by
  constructor
  · intro al loc locUe rv p ltr o hal hloc hfmt hfind hsend
    unfold UnrealActors.modify_actor
    simp [UEM.run, UEM.tryCatch_apply, UEM.bind_apply, UEM.pure_apply,
      UEM.throw_apply, UnrealConnection.send_command_apply,
      UnrealUtils.parse_kwargs, UnrealUtils.validate_required_params,
      UnrealUtils.format_transform_params, PyVal.get, PyVal.getD,
      List.lookup, List.filter, PyVal.truthy_none, PyVal.truthy_str,
      PyVal.truthy_dict, PyVal.truthy_list, PyVal.truthy_bool,
      PyVal.isNone_none, PyVal.isNone_bool, PyVal.isDict_dict,
      hal, hloc, hfmt, hfind, hsend, PyVal.pyOr, PyVal.hasKey,
      pyStrOf, pyRepr, PyVal.pyNot, PyVal.dictSet, except_bind_ok,
      except_bind_err]
  · intro al loc rot sc locUe rotUe scUe c1 c2 c3 vb p cp mp ltr r1 r2 r3 r4
      r6 o hal hloc hrot hsc hfmtL hfmtR hfmtS hfind hs1 hs2 hs3 hs4 hcomp
      hcp hmat hmp hvec
    unfold UnrealActors.modify_actor UnrealConnection.get_component_by_class
    simp [UEM.run, UEM.tryCatch_apply, UEM.bind_apply, UEM.pure_apply,
      UEM.throw_apply, UnrealConnection.send_command_apply,
      UnrealUtils.parse_kwargs, UnrealUtils.validate_required_params,
      UnrealUtils.format_transform_params, PyVal.get, PyVal.getD,
      List.lookup, List.filter, PyVal.truthy_none, PyVal.truthy_str,
      PyVal.truthy_dict, PyVal.truthy_list, PyVal.truthy_bool,
      PyVal.isNone_none, PyVal.isNone_bool, PyVal.isDict_dict,
      PyVal.isListLenGe, PyVal.idx,
      hal, hloc, hrot, hsc, hfmtL, hfmtR, hfmtS, hfind, hs1, hs2, hs3, hs4,
      hcomp, hcp, hmat, hmp, hvec, PyVal.pyOr, PyVal.hasKey,
      pyStrOf, pyRepr, PyVal.pyNot, PyVal.dictSet, except_bind_ok,
      except_bind_err]

/-- C8 witness: a concrete level with one actor labelled `Cube`. With only
a location given, the post-lookup trace is the single set-location call;
with all five fields given, the post-lookup calls come in the order
location, rotation, scale, visibility, color. -/
theorem modify_actor_field_dispatch_witness :
    (UnrealActors.modify_actor (pure ())
        (.dict [("actor_label", .str "Cube"),
                ("location", .list [.int 1, .int 2, .int 3])])).run
      (fun c =>
        if c.functionName = "GetAllLevelActors" then
          .ok (.dict [("ReturnValue", .list [.str "/M:PL.A1"])])
        else if c.functionName = "GetActorLabel" then
          .ok (.dict [("ReturnValue", .str "Cube")])
        else if c.functionName = "GetComponentByClass" then
          .ok (.dict [("ReturnValue", .str "/M:PL.A1.SMC")])
        else if c.functionName = "CreateDynamicMaterialInstance" then
          .ok (.dict [("ReturnValue", .str "/M:MAT")])
        else .ok .none)
      = (.ok "Successfully modified actor: Cube",
         [⟨"/Script/UnrealEd.Default__EditorActorSubsystem",
           "GetAllLevelActors", []⟩,
          ⟨"/M:PL.A1", "GetActorLabel", []⟩,
          ⟨"/M:PL.A1", "SetActorLocation",
           [("NewLocation", .dict [("X", .float 1), ("Y", .float 2),
                                   ("Z", .float 3)])]⟩])
    ∧ (UnrealActors.modify_actor (pure ())
        (.dict [("actor_label", .str "Cube"),
                ("location", .list [.int 1, .int 2, .int 3]),
                ("rotation", .list [.int 4, .int 5, .int 6]),
                ("scale", .list [.int 7, .int 8, .int 9]),
                ("visible", .bool false),
                ("color", .list [.int 1, .int 0, .int 0])])).run
      (fun c =>
        if c.functionName = "GetAllLevelActors" then
          .ok (.dict [("ReturnValue", .list [.str "/M:PL.A1"])])
        else if c.functionName = "GetActorLabel" then
          .ok (.dict [("ReturnValue", .str "Cube")])
        else if c.functionName = "GetComponentByClass" then
          .ok (.dict [("ReturnValue", .str "/M:PL.A1.SMC")])
        else if c.functionName = "CreateDynamicMaterialInstance" then
          .ok (.dict [("ReturnValue", .str "/M:MAT")])
        else .ok .none)
      = (.ok "Successfully modified actor: Cube",
         [⟨"/Script/UnrealEd.Default__EditorActorSubsystem",
           "GetAllLevelActors", []⟩,
          ⟨"/M:PL.A1", "GetActorLabel", []⟩,
          ⟨"/M:PL.A1", "SetActorLocation",
           [("NewLocation", .dict [("X", .float 1), ("Y", .float 2),
                                   ("Z", .float 3)])]⟩,
          ⟨"/M:PL.A1", "SetActorRotation",
           [("NewRotation", .dict [("Pitch", .float 4), ("Yaw", .float 5),
                                   ("Roll", .float 6)])]⟩,
          ⟨"/M:PL.A1", "SetActorScale3D",
           [("NewScale3D", .dict [("X", .float 7), ("Y", .float 8),
                                  ("Z", .float 9)])]⟩,
          ⟨"/M:PL.A1", "SetActorHiddenInGame",
           [("bNewHidden", .bool true)]⟩,
          ⟨"/M:PL.A1", "GetComponentByClass",
           [("ComponentClass", .str "/Script/Engine.StaticMeshComponent")]⟩,
          ⟨"/M:PL.A1.SMC", "CreateDynamicMaterialInstance",
           [("ElementIndex", .int 0),
            ("SourceMaterial",
             .str "/Engine/BasicShapes/BasicShapeMaterial.BasicShapeMaterial")]⟩,
          ⟨"/M:MAT", "SetVectorParameterValue",
           [("ParameterName", .str "Color"),
            ("Value", .dict [("R", .int 1), ("G", .int 0), ("B", .int 0),
                             ("A", .float 1)])]⟩]) :=
  ⟨modify_actor_field_dispatch.1 "Cube" (.list [.int 1, .int 2, .int 3])
      (.dict [("X", .float 1), ("Y", .float 2), ("Z", .float 3)]) .none
      "/M:PL.A1"
      [⟨"/Script/UnrealEd.Default__EditorActorSubsystem",
        "GetAllLevelActors", []⟩,
       ⟨"/M:PL.A1", "GetActorLabel", []⟩]
      _ rfl rfl rfl rfl rfl,
   modify_actor_field_dispatch.2 "Cube" (.list [.int 1, .int 2, .int 3])
      (.list [.int 4, .int 5, .int 6]) (.list [.int 7, .int 8, .int 9])
      (.dict [("X", .float 1), ("Y", .float 2), ("Z", .float 3)])
      (.dict [("Pitch", .float 4), ("Yaw", .float 5), ("Roll", .float 6)])
      (.dict [("X", .float 7), ("Y", .float 8), ("Z", .float 9)])
      (.int 1) (.int 0) (.int 0) false "/M:PL.A1" "/M:PL.A1.SMC" "/M:MAT"
      [⟨"/Script/UnrealEd.Default__EditorActorSubsystem",
        "GetAllLevelActors", []⟩,
       ⟨"/M:PL.A1", "GetActorLabel", []⟩]
      .none .none .none .none .none
      _ rfl rfl rfl rfl rfl rfl rfl rfl rfl rfl rfl rfl rfl rfl rfl rfl rfl⟩
